import Mathlib

/-!
# Lab 1 (two triangles, two shader programs): a verification development

Shallow embedding of `Lab1/main.cpp`.  Every OpenGL / GLUT entry point the program
calls is recorded as an event of type `Call`, together with the value the driver
handed back.  The driver itself is an arbitrary oracle (`Driver`): each answer may
depend on the whole history of calls issued so far, so a statement quantified over
all drivers covers every behaviour of the graphics library.

Process termination (`exit`) is the `Outcome.exit` result; `stderr` is the list of
`fprintf` records held by the `World`.
-/

set_option autoImplicit false

namespace Lab1

/-! ## Basic types -/

abbrev GLuint := Nat
abbrev GLint := Int

/-- Conversion of a `GLint` to a `GLuint` as done by the C++ initialisation
`GLuint x = <GLint expression>` (reduction modulo `2^32`). -/
def toGLuint (x : GLint) : GLuint := (x % (2 ^ 32 : Int)).toNat

/-- The OpenGL enumerants (and the one bit mask) named in `main.cpp`. -/
inductive GLenum
  | GL_VERTEX_SHADER
  | GL_FRAGMENT_SHADER
  | GL_COMPILE_STATUS
  | GL_LINK_STATUS
  | GL_VALIDATE_STATUS
  | GL_ARRAY_BUFFER
  | GL_ELEMENT_ARRAY_BUFFER
  | GL_STATIC_DRAW
  | GL_FLOAT
  | GL_UNSIGNED_INT
  | GL_TRIANGLES
  | GL_COLOR_BUFFER_BIT
  deriving DecidableEq, Repr

open GLenum

/-- A four byte object held in client memory: a `GLfloat` or a `GLuint`. -/
inductive Scalar (F : Type)
  | GLfloat (x : F)
  | GLuint (n : Nat)
  deriving DecidableEq, Repr

/-- `sizeof(GLfloat)`; OpenGL fixes `GLfloat` and `GLuint` at 32 bits. -/
def sizeofGLfloat : Nat := 4

/-- `sizeof(GLuint)`. -/
def sizeofGLuint : Nat := 4

/-- One byte of memory, kept symbolic: byte number `idx` of the four byte object `obj`. -/
structure Byte (F : Type) where
  obj : Scalar F
  idx : Nat
  deriving DecidableEq, Repr

/-- The bytes of an array of four byte objects, in address order. -/
def bytesOf {F : Type} : List (Scalar F) → List (Byte F)
  | [] => []
  | x :: xs => ⟨x, 0⟩ :: ⟨x, 1⟩ :: ⟨x, 2⟩ :: ⟨x, 3⟩ :: bytesOf xs

/-- The bytes of a `GLfloat` array. -/
def floatBytes {F : Type} (xs : List F) : List (Byte F) :=
  bytesOf (xs.map Scalar.GLfloat)

/-- The bytes of a `GLuint` array. -/
def uintBytes {F : Type} (xs : List Nat) : List (Byte F) :=
  bytesOf (xs.map Scalar.GLuint)

/-- One call into the graphics library, with its arguments and, where the call
returns something, the value returned (`ret`).  Pointer arguments that are read by
the callee are recorded as the bytes of the array they point to; a `NULL` data
pointer is `none`. -/
inductive Call (F Src : Type)
  | glCreateProgram (ret : GLuint)
  | glCreateShader (type : GLenum) (ret : GLuint)
  | glShaderSource (shader : GLuint) (count : Nat) (text : Src)
  | glCompileShader (shader : GLuint)
  | glGetShaderiv (shader : GLuint) (pname : GLenum) (ret : GLint)
  | glGetShaderInfoLog (shader : GLuint) (bufSize : Nat) (ret : String)
  | glAttachShader (program shader : GLuint)
  | glLinkProgram (program : GLuint)
  | glGetProgramiv (program : GLuint) (pname : GLenum) (ret : GLint)
  | glGetProgramInfoLog (program : GLuint) (bufSize : Nat) (ret : String)
  | glValidateProgram (program : GLuint)
  | glUseProgram (program : GLuint)
  | glGenBuffers (n : Nat) (ret : List GLuint)
  | glGenVertexArrays (n : Nat) (ret : List GLuint)
  | glBindBuffer (target : GLenum) (buffer : GLuint)
  | glBufferData (target : GLenum) (size : Nat) (data : Option (List (Byte F))) (usage : GLenum)
  | glBufferSubData (target : GLenum) (offset size : Nat) (data : List (Byte F))
  | glGetAttribLocation (program : GLuint) (name : String) (ret : GLint)
  | glBindVertexArray (array : GLuint)
  | glEnableVertexAttribArray (index : GLuint)
  | glVertexAttribPointer (index : GLuint) (size : Nat) (type : GLenum) (normalized : Bool)
      (stride : Nat) (pointer : Nat)
  | glClear (mask : GLenum)
  | glDrawElements (mode : GLenum) (count : Nat) (type : GLenum) (indices : Nat)
  | glutSwapBuffers

/-- An argument of a `fprintf` call. -/
inductive FArg
  | d (e : GLenum)
  | s (str : String)
  deriving DecidableEq, Repr

/-- One `fprintf(stderr, fmt, args...)`. -/
structure Fprintf where
  fmt : String
  args : List FArg
  deriving DecidableEq, Repr

/-- The graphics driver: what each value-returning call answers, given the history
of calls issued before it. -/
structure Driver (F Src : Type) where
  glCreateProgram : List (Call F Src) → GLuint
  glCreateShader : List (Call F Src) → GLenum → GLuint
  glGetShaderiv : List (Call F Src) → GLuint → GLenum → GLint
  glGetShaderInfoLog : List (Call F Src) → GLuint → Nat → String
  glGetProgramiv : List (Call F Src) → GLuint → GLenum → GLint
  glGetProgramInfoLog : List (Call F Src) → GLuint → Nat → String
  glGenBuffers : List (Call F Src) → Nat → GLuint
  glGenVertexArrays : List (Call F Src) → Nat → GLuint
  glGetAttribLocation : List (Call F Src) → GLuint → String → GLint

/-- The process state: the calls issued so far (oldest first), what has been written
to `stderr`, and the four global handle arrays of `main.cpp`. -/
structure World (F Src : Type) where
  calls : List (Call F Src)
  err : List Fprintf
  shaderProgramID : Fin 2 → GLuint
  VAO : Fin 2 → GLuint
  VBO : Fin 2 → GLuint
  EBO : Fin 2 → GLuint

/-- The state in which `main` starts: nothing called, nothing printed, and the
global arrays zero-initialised. -/
def World.start (F Src : Type) : World F Src :=
  { calls := [], err := [], shaderProgramID := fun _ => 0, VAO := fun _ => 0,
    VBO := fun _ => 0, EBO := fun _ => 0 }

/-- Issue one call. -/
def World.call {F Src : Type} (w : World F Src) (c : Call F Src) : World F Src :=
  { w with calls := w.calls ++ [c] }

/-- Write one diagnostic to `stderr`. -/
def World.fprintf {F Src : Type} (w : World F Src) (fmt : String) (args : List FArg) :
    World F Src :=
  { w with err := w.err ++ [⟨fmt, args⟩] }

/-- How a routine ends: it returns a value, or the process ends through `exit(status)`. -/
inductive Outcome (α : Type)
  | ret (a : α)
  | exit (status : Int)
  deriving DecidableEq, Repr

/-! ## Shader functions -/

section ShaderFunctions

variable {F Src : Type}

/-- `static void AddShader(GLuint ShaderProgram, const char* pShaderText, GLenum ShaderType)`. -/
def AddShader (d : Driver F Src) (w : World F Src) (ShaderProgram : GLuint)
    (pShaderText : Src) (ShaderType : GLenum) : Outcome Unit × World F Src :=
  let ShaderObj := d.glCreateShader w.calls ShaderType
  let w := w.call (.glCreateShader ShaderType ShaderObj)
  if ShaderObj = 0 then
    (.exit 0, w.fprintf "Error creating shader type %d\n" [.d ShaderType])
  else
    let w := w.call (.glShaderSource ShaderObj 1 pShaderText)
    let w := w.call (.glCompileShader ShaderObj)
    let success := d.glGetShaderiv w.calls ShaderObj GL_COMPILE_STATUS
    let w := w.call (.glGetShaderiv ShaderObj GL_COMPILE_STATUS success)
    if success = 0 then
      let InfoLog := d.glGetShaderInfoLog w.calls ShaderObj 1024
      let w := w.call (.glGetShaderInfoLog ShaderObj 1024 InfoLog)
      (.exit 1, w.fprintf "Error compiling shader type %d: \x27%s\x27\n" [.d ShaderType, .s InfoLog])
    else
      (.ret (), w.call (.glAttachShader ShaderProgram ShaderObj))

/-- `GLuint CompileShaders(const char* pVS, const char* pFS)`. -/
def CompileShaders (d : Driver F Src) (w : World F Src) (pVS pFS : Src) :
    Outcome GLuint × World F Src :=
  let shaderProgramID := d.glCreateProgram w.calls
  let w := w.call (.glCreateProgram shaderProgramID)
  if shaderProgramID = 0 then
    (.exit 1, w.fprintf "Error creating shader program\n" [])
  else
    match AddShader d w shaderProgramID pVS GL_VERTEX_SHADER with
    | (.exit status, w) => (.exit status, w)
    | (.ret _, w) =>
    match AddShader d w shaderProgramID pFS GL_FRAGMENT_SHADER with
    | (.exit status, w) => (.exit status, w)
    | (.ret _, w) =>
    let w := w.call (.glLinkProgram shaderProgramID)
    let Success := d.glGetProgramiv w.calls shaderProgramID GL_LINK_STATUS
    let w := w.call (.glGetProgramiv shaderProgramID GL_LINK_STATUS Success)
    if Success = 0 then
      let ErrorLog := d.glGetProgramInfoLog w.calls shaderProgramID 1024
      let w := w.call (.glGetProgramInfoLog shaderProgramID 1024 ErrorLog)
      (.exit 1, w.fprintf "Error linking shader program: \x27%s\x27\n" [.s ErrorLog])
    else
      let w := w.call (.glValidateProgram shaderProgramID)
      let Success := d.glGetProgramiv w.calls shaderProgramID GL_VALIDATE_STATUS
      let w := w.call (.glGetProgramiv shaderProgramID GL_VALIDATE_STATUS Success)
      if Success = 0 then
        let ErrorLog := d.glGetProgramInfoLog w.calls shaderProgramID 1024
        let w := w.call (.glGetProgramInfoLog shaderProgramID 1024 ErrorLog)
        (.exit 1, w.fprintf "Invalid shader program: \x27%s\x27\n" [.s ErrorLog])
      else
        let w := w.call (.glUseProgram shaderProgramID)
        (.ret shaderProgramID, w)

end ShaderFunctions

/-! ## VBO functions -/

section VBOFunctions

variable {F Src : Type}

/-- `void generateObjectBuffer(GLuint& VBO, GLfloat vertices[], GLfloat colors[])`.
The value returned is the one stored through the reference `VBO`. -/
def generateObjectBuffer (d : Driver F Src) (w : World F Src) (vertices colors : List F) :
    GLuint × World F Src :=
  let numVertices : Nat := 3
  let VBO := d.glGenBuffers w.calls 0
  let w := w.call (.glGenBuffers 1 [VBO])
  let w := w.call (.glBindBuffer GL_ARRAY_BUFFER VBO)
  let w := w.call (.glBufferData GL_ARRAY_BUFFER (numVertices * 7 * sizeofGLfloat) none
    GL_STATIC_DRAW)
  let w := w.call (.glBufferSubData GL_ARRAY_BUFFER 0 (numVertices * 3 * sizeofGLfloat)
    (floatBytes vertices))
  let w := w.call (.glBufferSubData GL_ARRAY_BUFFER (numVertices * 3 * sizeofGLfloat)
    (numVertices * 4 * sizeofGLfloat) (floatBytes colors))
  (VBO, w)

/-- The macro `BUFFER_OFFSET(i)`, `((char *)NULL + (i))`: the address `i`. -/
def BUFFER_OFFSET (i : Nat) : Nat := 0 + i

/-- `void linkCurrentBuffertoShader(GLuint& VAO, GLuint& VBO, GLuint shaderProgramID)`. -/
def linkCurrentBuffertoShader (d : Driver F Src) (w : World F Src)
    (VAO VBO shaderProgramID : GLuint) : World F Src :=
  let numVertices : Nat := 3
  let positionLoc := d.glGetAttribLocation w.calls shaderProgramID "vPosition"
  let w := w.call (.glGetAttribLocation shaderProgramID "vPosition" positionLoc)
  let positionID := toGLuint positionLoc
  let colorLoc := d.glGetAttribLocation w.calls shaderProgramID "vColor"
  let w := w.call (.glGetAttribLocation shaderProgramID "vColor" colorLoc)
  let colorID := toGLuint colorLoc
  let w := w.call (.glBindVertexArray VAO)
  let w := w.call (.glBindBuffer GL_ARRAY_BUFFER VBO)
  let w := w.call (.glEnableVertexAttribArray positionID)
  let w := w.call (.glVertexAttribPointer positionID 3 GL_FLOAT false 0 0)
  let w := w.call (.glEnableVertexAttribArray colorID)
  let w := w.call (.glVertexAttribPointer colorID 4 GL_FLOAT false 0
    (BUFFER_OFFSET (numVertices * 3 * sizeofGLfloat)))
  w

end VBOFunctions

/-! ## The render step -/

/-- `void display()`. -/
def display {F Src : Type} (w : World F Src) : World F Src :=
  let w := w.call (.glClear GL_COLOR_BUFFER_BIT)
  let w := w.call (.glUseProgram (w.shaderProgramID 0))
  let w := w.call (.glBindVertexArray (w.VAO 0))
  let w := w.call (.glDrawElements GL_TRIANGLES 3 GL_UNSIGNED_INT 0)
  let w := w.call (.glUseProgram (w.shaderProgramID 1))
  let w := w.call (.glBindVertexArray (w.VAO 1))
  let w := w.call (.glDrawElements GL_TRIANGLES 3 GL_UNSIGNED_INT 0)
  let w := w.call .glutSwapBuffers
  w

/-! ## The shader sources

The three GLSL texts of `main.cpp`, kept as syntax trees of the small GLSL fragment
they are written in: a version line, global `in` / `out` declarations, and a `main`
made of assignments. -/

/-- The GLSL types used. -/
inductive GLSLType
  | vec3
  | vec4
  deriving DecidableEq, Repr

/-- Storage qualifiers `in` and `out`. -/
inductive Qualifier
  | in_
  | out_
  deriving DecidableEq, Repr

/-- A global declaration `<qualifier> <type> <name>;`. -/
structure Decl where
  qual : Qualifier
  type : GLSLType
  name : String
  deriving DecidableEq, Repr

/-- GLSL expressions. -/
inductive Expr (F : Type)
  | var (name : String)
  | field (name : String) (component : String)
  | lit (x : F)
  | vec4 (x y z w : Expr F)

/-- An assignment statement `lhs = rhs;`. -/
structure Stmt (F : Type) where
  lhs : String
  rhs : Expr F

/-- A shader source text. -/
structure Shader (F : Type) where
  version : Nat
  decls : List Decl
  main : List (Stmt F)

section Sources

variable {F : Type} [OfScientific F]

/-- The vertex shader text `pVS`. -/
def pVS : Shader F :=
  { version := 330
    decls := [⟨.in_, .vec3, "vPosition"⟩, ⟨.in_, .vec4, "vColor"⟩, ⟨.out_, .vec4, "color"⟩]
    main :=
      [⟨"gl_Position", .vec4 (.field "vPosition" "x") (.field "vPosition" "y")
          (.field "vPosition" "z") (.lit 1.0)⟩,
       ⟨"color", .var "vColor"⟩] }

/-- The fragment shader texts `pFS[0]` and `pFS[1]`. -/
def pFS : Fin 2 → Shader F
  | 0 =>
    { version := 330
      decls := [⟨.in_, .vec4, "color"⟩, ⟨.out_, .vec4, "FragColor"⟩]
      main := [⟨"FragColor", .var "color"⟩] }
  | 1 =>
    { version := 330
      decls := [⟨.in_, .vec4, "color"⟩, ⟨.out_, .vec4, "FragColor"⟩]
      main := [⟨"FragColor", .vec4 (.lit 1.0) (.lit 1.0) (.lit 0.0) (.lit 1.0)⟩] }

end Sources

/-- GLSL values. -/
inductive Value (F : Type)
  | float (x : F)
  | vec3 (x y z : F)
  | vec4 (x y z w : F)
  deriving DecidableEq, Repr

/-- Variable environments. -/
abbrev Env (F : Type) := List (String × Value F)

/-- Look a variable up; the most recent binding wins. -/
def Env.get {F : Type} : Env F → String → Option (Value F)
  | [], _ => none
  | (n, v) :: rest, x => if n = x then some v else Env.get rest x

/-- Component selection `v.x`, `v.y`, `v.z`, `v.w`. -/
def Value.component {F : Type} : Value F → String → Option F
  | .vec3 x y z, c =>
    if c = "x" then some x else if c = "y" then some y else if c = "z" then some z else none
  | .vec4 x y z w, c =>
    if c = "x" then some x else if c = "y" then some y else if c = "z" then some z
    else if c = "w" then some w else none
  | .float _, _ => none

/-- Evaluation of expressions. -/
def Expr.eval {F : Type} (env : Env F) : Expr F → Option (Value F)
  | .var n => env.get n
  | .field n c =>
    match env.get n with
    | some v => (v.component c).map Value.float
    | none => none
  | .lit x => some (.float x)
  | .vec4 a b c e =>
    match Expr.eval env a, Expr.eval env b, Expr.eval env c, Expr.eval env e with
    | some (.float x), some (.float y), some (.float z), some (.float w) => some (.vec4 x y z w)
    | _, _, _, _ => none

/-- Execution of the statements of `main`, in order. -/
def runMain {F : Type} : Env F → List (Stmt F) → Option (Env F)
  | env, [] => some env
  | env, st :: rest =>
    match st.rhs.eval env with
    | some v => runMain ((st.lhs, v) :: env) rest
    | none => none

/-- A fragment shader read as a function from its interpolated input `color` to its
output `FragColor`. -/
def Shader.fragColor {F : Type} (sh : Shader F) (color : Value F) : Option (Value F) :=
  match runMain [("color", color)] sh.main with
  | some env => env.get "FragColor"
  | none => none

/-- The names of the inputs (`in` declarations) of a shader, in declaration order. -/
def Shader.inputs {F : Type} (sh : Shader F) : List String :=
  (sh.decls.filter (fun dcl => dcl.qual = Qualifier.in_)).map Decl.name

/-! ## Initialisation -/

section Init

variable {F : Type} [OfScientific F] [Neg F]

/-- The local array `vertices` of `init`. -/
def vertices : Fin 2 → List F
  | 0 => [-0.5, 0.5, 0.0, 0.5, -0.5, 0.0, -0.5, -0.5, 0.0]
  | 1 => [-0.5, 0.5, 0.0, 0.5, -0.5, 0.0, 0.5, 0.5, 0.0]

/-- The local array `colors` of `init`. -/
def colors : List F :=
  [1.0, 0.0, 0.0, 1.0, 0.0, 1.0, 0.0, 1.0, 0.0, 0.0, 1.0, 1.0]

/-- The local array `indices` of `init`. -/
def indices : List Nat := [0, 1, 2]

/-- The body of the `for` loop of `init`, for loop counter `i`. -/
def initBody (d : Driver F (Shader F)) (w : World F (Shader F)) (i : Fin 2) :
    Outcome Unit × World F (Shader F) :=
  match CompileShaders d w pVS (pFS i) with
  | (.exit status, w) => (.exit status, w)
  | (.ret program, w) =>
    let w := { w with shaderProgramID := Function.update w.shaderProgramID i program }
    let (vbo, w) := generateObjectBuffer d w (vertices i) colors
    let w := { w with VBO := Function.update w.VBO i vbo }
    let w := linkCurrentBuffertoShader d w (w.VAO i) (w.VBO i) (w.shaderProgramID i)
    let w := w.call (.glBindVertexArray (w.VAO i))
    let w := w.call (.glBindBuffer GL_ELEMENT_ARRAY_BUFFER (w.EBO i))
    let w := w.call (.glBufferData GL_ELEMENT_ARRAY_BUFFER (indices.length * sizeofGLuint)
      (some (uintBytes indices)) GL_STATIC_DRAW)
    (.ret (), w)

/-- The loop `for (int i = 0; i < 2; i++)`, run over the remaining counter values. -/
def initLoop (d : Driver F (Shader F)) :
    List (Fin 2) → World F (Shader F) → Outcome Unit × World F (Shader F)
  | [], w => (.ret (), w)
  | i :: rest, w =>
    match initBody d w i with
    | (.exit status, w) => (.exit status, w)
    | (.ret _, w) => initLoop d rest w

/-- `void init()`. -/
def init (d : Driver F (Shader F)) (w : World F (Shader F)) :
    Outcome Unit × World F (Shader F) :=
  let w := { w with VAO := fun j => d.glGenVertexArrays w.calls j }.call
    (.glGenVertexArrays 2 [d.glGenVertexArrays w.calls 0, d.glGenVertexArrays w.calls 1])
  let w := { w with EBO := fun j => d.glGenBuffers w.calls j }.call
    (.glGenBuffers 2 [d.glGenBuffers w.calls 0, d.glGenBuffers w.calls 1])
  initLoop d [0, 1] w

end Init

/-! ## The object and binding state of the graphics library

The effect of each recorded call on the server-side state, following the OpenGL 3.3
description of the calls `main.cpp` uses: a vertex array object records, per
attribute index, whether the array is enabled and the layout and array buffer given
by the last `glVertexAttribPointer`, and it records the element array buffer bound
while it is current; a buffer object owns a data store of bytes; a program object
owns the list of shader objects attached to it.  Errors leave the state unchanged.
Binding a name that was never generated is not treated as an error. -/

/-- The state of one generic vertex attribute array. -/
structure VertexAttrib where
  enabled : Bool
  size : Nat
  type : GLenum
  normalized : Bool
  stride : Nat
  pointer : Nat
  buffer : GLuint
  deriving DecidableEq, Repr

/-- The initial state of a vertex attribute array. -/
def VertexAttrib.initial : VertexAttrib :=
  { enabled := false, size := 4, type := GL_FLOAT, normalized := false, stride := 0,
    pointer := 0, buffer := 0 }

/-- The state of a vertex array object. -/
structure VertexArray where
  attrib : GLuint → VertexAttrib
  elementBuffer : GLuint

/-- The state of a shader object. -/
structure ShaderObject (Src : Type) where
  type : GLenum
  source : Option Src

/-- A data store: one cell per byte, `none` while the byte is uninitialised. -/
abbrev Store (F : Type) := List (Option (Byte F))

/-- The state of the library. -/
structure GLState (F Src : Type) where
  currentProgram : GLuint
  arrayBuffer : GLuint
  vertexArray : GLuint
  vertexArrays : GLuint → VertexArray
  buffers : GLuint → Option (Store F)
  shaders : GLuint → Option (ShaderObject Src)
  programs : GLuint → Option (List GLuint)

/-- The state of a fresh context. -/
def GLState.initial (F Src : Type) : GLState F Src :=
  { currentProgram := 0, arrayBuffer := 0, vertexArray := 0,
    vertexArrays := fun _ => { attrib := fun _ => VertexAttrib.initial, elementBuffer := 0 },
    buffers := fun _ => none, shaders := fun _ => none, programs := fun _ => none }

section Semantics

variable {F Src : Type}

/-- The buffer object bound to `target`. -/
def GLState.boundBuffer (s : GLState F Src) (target : GLenum) : GLuint :=
  match target with
  | GL_ARRAY_BUFFER => s.arrayBuffer
  | GL_ELEMENT_ARRAY_BUFFER => (s.vertexArrays s.vertexArray).elementBuffer
  | _ => 0

/-- The `size` bytes the library reads from a client array; a byte past the end of
the array is indeterminate. -/
def clientRead (data : List (Byte F)) (size : Nat) : Store F :=
  (List.range size).map fun i => data.get? i

/-- The store produced by `glBufferData`. -/
def newStore (size : Nat) (data : Option (List (Byte F))) : Store F :=
  match data with
  | none => List.replicate size none
  | some bytes => clientRead bytes size

/-- Overwrite the byte range `[offset, offset + size)` of a store. -/
def Store.write (store : Store F) (offset size : Nat) (data : List (Byte F)) : Store F :=
  store.take offset ++ clientRead data size ++ store.drop (offset + size)

/-- The effect of one call; `maxAttribs` is the value of `GL_MAX_VERTEX_ATTRIBS`. -/
def glStep (maxAttribs : Nat) (s : GLState F Src) : Call F Src → GLState F Src
  | .glCreateProgram ret =>
    if ret = 0 then s else { s with programs := Function.update s.programs ret (some []) }
  | .glCreateShader type ret =>
    if ret = 0 then s
    else { s with shaders := Function.update s.shaders ret (some ⟨type, none⟩) }
  | .glShaderSource shader _ text =>
    match s.shaders shader with
    | some obj =>
      { s with shaders := Function.update s.shaders shader (some { obj with source := some text }) }
    | none => s
  | .glAttachShader program shader =>
    match s.programs program, s.shaders shader with
    | some attached, some _ =>
      if shader ∈ attached then s
      else { s with programs := Function.update s.programs program (some (attached ++ [shader])) }
    | _, _ => s
  | .glUseProgram program => { s with currentProgram := program }
  | .glBindVertexArray array => { s with vertexArray := array }
  | .glBindBuffer target buffer =>
    match target with
    | GL_ARRAY_BUFFER => { s with arrayBuffer := buffer }
    | GL_ELEMENT_ARRAY_BUFFER =>
      let va := s.vertexArrays s.vertexArray
      { s with
        vertexArrays :=
          Function.update s.vertexArrays s.vertexArray { va with elementBuffer := buffer } }
    | _ => s
  | .glBufferData target size data _ =>
    if s.boundBuffer target = 0 then s
    else
      { s with
        buffers :=
          Function.update s.buffers (s.boundBuffer target) (some (newStore size data)) }
  | .glBufferSubData target offset size data =>
    if s.boundBuffer target = 0 then s
    else
      match s.buffers (s.boundBuffer target) with
      | some store =>
        if offset + size ≤ store.length then
          { s with
            buffers :=
              Function.update s.buffers (s.boundBuffer target)
                (some (store.write offset size data)) }
        else s
      | none => s
  | .glEnableVertexAttribArray index =>
    if index < maxAttribs then
      let va := s.vertexArrays s.vertexArray
      let old := va.attrib index
      let new : VertexAttrib := { old with enabled := true }
      { s with
        vertexArrays :=
          Function.update s.vertexArrays s.vertexArray
            { va with attrib := Function.update va.attrib index new } }
    else s
  | .glVertexAttribPointer index size type normalized stride pointer =>
    if index < maxAttribs then
      let va := s.vertexArrays s.vertexArray
      let old := va.attrib index
      let new : VertexAttrib :=
        { enabled := old.enabled, size := size, type := type, normalized := normalized,
          stride := stride, pointer := pointer, buffer := s.arrayBuffer }
      { s with
        vertexArrays :=
          Function.update s.vertexArrays s.vertexArray
            { va with attrib := Function.update va.attrib index new } }
    else s
  | _ => s

/-- The state reached from a fresh context by a sequence of calls. -/
def glRun (maxAttribs : Nat) (calls : List (Call F Src)) : GLState F Src :=
  calls.foldl (glStep maxAttribs) (GLState.initial F Src)

/-- The shader objects of type `type` attached to `program`. -/
def GLState.attachedOfType (s : GLState F Src) (program : GLuint) (type : GLenum) :
    List GLuint :=
  ((s.programs program).getD []).filter fun sh =>
    match s.shaders sh with
    | some obj => obj.type = type
    | none => false

/-- The source text of a shader object. -/
def GLState.sourceOf (s : GLState F Src) (shader : GLuint) : Option Src :=
  match s.shaders shader with
  | some obj => obj.source
  | none => none

/-- All cells initialised: the bytes of a list of cells. -/
def allBytes : Store F → Option (List (Byte F))
  | [] => some []
  | none :: _ => none
  | some b :: rest =>
    match allBytes rest with
    | some bs => some (b :: bs)
    | none => none

/-- The distance in bytes between consecutive elements of an attribute array; a
stride of `0` means tightly packed. -/
def VertexAttrib.effectiveStride (a : VertexAttrib) : Nat :=
  if a.stride = 0 then a.size * sizeofGLfloat else a.stride

/-- The first byte read for vertex `k` of an attribute array. -/
def VertexAttrib.first (a : VertexAttrib) (k : Nat) : Nat :=
  a.pointer + k * a.effectiveStride

/-- One past the last byte read for vertex `k` of an attribute array. -/
def VertexAttrib.last (a : VertexAttrib) (k : Nat) : Nat :=
  a.first k + a.size * sizeofGLfloat

/-- The bytes fetched for vertex `k` of an attribute array from its buffer; `none`
when the buffer has no store, the range leaves the store, or a byte is uninitialised. -/
def GLState.fetch (s : GLState F Src) (a : VertexAttrib) (k : Nat) : Option (List (Byte F)) :=
  match s.buffers a.buffer with
  | some store =>
    if a.last k ≤ store.length then
      allBytes ((store.drop (a.first k)).take (a.size * sizeofGLfloat))
    else none
  | none => none

end Semantics

/-! ## Reading a trace -/

section Traces

variable {F Src : Type}

/-- The steps of a shader build whose success the program checks. -/
inductive BuildStep
  | programCreation
  | shaderCreation (type : GLenum)
  | compilation
  | linking
  | validation
  deriving DecidableEq, Repr

/-- The build step a call reports on, and whether it reports success: a creation
call reports through the handle it returns (zero is failure), a status query
through the status it returns (zero is failure). -/
def Call.report : Call F Src → Option (BuildStep × Bool)
  | .glCreateProgram ret => some (.programCreation, decide (ret ≠ 0))
  | .glCreateShader type ret => some (.shaderCreation type, decide (ret ≠ 0))
  | .glGetShaderiv _ GL_COMPILE_STATUS ret => some (.compilation, decide (ret ≠ 0))
  | .glGetProgramiv _ GL_LINK_STATUS ret => some (.linking, decide (ret ≠ 0))
  | .glGetProgramiv _ GL_VALIDATE_STATUS ret => some (.validation, decide (ret ≠ 0))
  | _ => none

/-- The call reports a failed build step. -/
def Call.reportsFailure (c : Call F Src) : Bool :=
  match c.report with
  | some (_, ok) => !ok
  | none => false

/-- The call is a query of an information log. -/
def Call.isInfoLog : Call F Src → Bool
  | .glGetShaderInfoLog _ _ _ => true
  | .glGetProgramInfoLog _ _ _ => true
  | _ => false

/-- The call is one of attach, link, validate, use. -/
def Call.isBuildAction : Call F Src → Bool
  | .glAttachShader _ _ => true
  | .glLinkProgram _ => true
  | .glValidateProgram _ => true
  | .glUseProgram _ => true
  | _ => false

/-- The call is a draw call. -/
def Call.isDraw : Call F Src → Bool
  | .glDrawElements _ _ _ _ => true
  | _ => false

/-- The program handles returned by successful `glCreateProgram` calls. -/
def createdPrograms : List (Call F Src) → List GLuint
  | [] => []
  | .glCreateProgram ret :: rest =>
    if ret = 0 then createdPrograms rest else ret :: createdPrograms rest
  | _ :: rest => createdPrograms rest

/-- The names returned by `glGenVertexArrays` calls. -/
def generatedVertexArrays : List (Call F Src) → List GLuint
  | [] => []
  | .glGenVertexArrays _ ret :: rest => ret ++ generatedVertexArrays rest
  | _ :: rest => generatedVertexArrays rest

/-- The names returned by `glGenBuffers` calls. -/
def generatedBuffers : List (Call F Src) → List GLuint
  | [] => []
  | .glGenBuffers _ ret :: rest => ret ++ generatedBuffers rest
  | _ :: rest => generatedBuffers rest

/-- The driver handed out a fresh non-zero handle for each object created in the
trace: no name is zero and no name is handed out twice within its name space. -/
def FreshHandles (t : List (Call F Src)) : Prop :=
  (createdPrograms t).Nodup ∧
  (generatedVertexArrays t).Nodup ∧ 0 ∉ generatedVertexArrays t ∧
  (generatedBuffers t).Nodup ∧ 0 ∉ generatedBuffers t

/-- The attribute names looked up by `glGetAttribLocation` calls, in order. -/
def lookedUpNames : List (Call F Src) → List String
  | [] => []
  | .glGetAttribLocation _ name _ :: rest => name :: lookedUpNames rest
  | _ :: rest => lookedUpNames rest

/-- The number of `glBufferSubData` calls in a trace that write byte `b`. -/
def timesWritten (b : Nat) : List (Call F Src) → Nat
  | [] => 0
  | .glBufferSubData _ offset size _ :: rest =>
    (if offset ≤ b ∧ b < offset + size then 1 else 0) + timesWritten b rest
  | _ :: rest => timesWritten b rest

/-- The value a call records as returned is the answer driver `d` gives to that call
after the history `h`.  Calls that return nothing are answered trivially. -/
def Call.answeredBy (d : Driver F Src) (h : List (Call F Src)) : Call F Src → Prop
  | .glCreateProgram ret => ret = d.glCreateProgram h
  | .glCreateShader type ret => ret = d.glCreateShader h type
  | .glGetShaderiv shader pname ret => ret = d.glGetShaderiv h shader pname
  | .glGetShaderInfoLog shader bufSize ret => ret = d.glGetShaderInfoLog h shader bufSize
  | .glGetProgramiv program pname ret => ret = d.glGetProgramiv h program pname
  | .glGetProgramInfoLog program bufSize ret => ret = d.glGetProgramInfoLog h program bufSize
  | .glGenBuffers n ret => ret = (List.range n).map (d.glGenBuffers h)
  | .glGenVertexArrays n ret => ret = (List.range n).map (d.glGenVertexArrays h)
  | .glGetAttribLocation program name ret => ret = d.glGetAttribLocation h program name
  | _ => True

/-- Every call of `new`, issued after the history `h`, records the answer driver `d`
gives at the moment the call is made. -/
def Faithful (d : Driver F Src) : List (Call F Src) → List (Call F Src) → Prop
  | _, [] => True
  | h, c :: rest => c.answeredBy d h ∧ Faithful d (h ++ [c]) rest

/-- Driver `d`, asked after the history `h` to build a program from the two texts in
the order of the shader build contract (create the program; create, source and
compile the vertex shader and query its status, attach it; the same for the fragment
shader; link and query; validate and query), reports success at all seven checked
steps: program creation, both shader-object creations, both compilations, linking
and validation. -/
def StepsSucceed (d : Driver F Src) (h : List (Call F Src)) (pVS pFS : Src) : Prop :=
  let program := d.glCreateProgram h
  let h1 := h ++ [.glCreateProgram program]
  let vs := d.glCreateShader h1 GL_VERTEX_SHADER
  let h2 := h1 ++ [.glCreateShader GL_VERTEX_SHADER vs, .glShaderSource vs 1 pVS,
    .glCompileShader vs]
  let cv := d.glGetShaderiv h2 vs GL_COMPILE_STATUS
  let h3 := h2 ++ [.glGetShaderiv vs GL_COMPILE_STATUS cv, .glAttachShader program vs]
  let fs := d.glCreateShader h3 GL_FRAGMENT_SHADER
  let h4 := h3 ++ [.glCreateShader GL_FRAGMENT_SHADER fs, .glShaderSource fs 1 pFS,
    .glCompileShader fs]
  let cf := d.glGetShaderiv h4 fs GL_COMPILE_STATUS
  let h5 := h4 ++ [.glGetShaderiv fs GL_COMPILE_STATUS cf, .glAttachShader program fs,
    .glLinkProgram program]
  let link := d.glGetProgramiv h5 program GL_LINK_STATUS
  let h6 := h5 ++ [.glGetProgramiv program GL_LINK_STATUS link, .glValidateProgram program]
  let valid := d.glGetProgramiv h6 program GL_VALIDATE_STATUS
  program ≠ 0 ∧ vs ≠ 0 ∧ cv ≠ 0 ∧ fs ≠ 0 ∧ cf ≠ 0 ∧ link ≠ 0 ∧ valid ≠ 0

end Traces

/-! ## The shapes a shader build can take -/

section BuildShapes

variable {F Src : Type}

/-- The calls of an `AddShader` that gets as far as the compile status query. -/
def compileCalls (shader : GLuint) (text : Src) (type : GLenum) (status : GLint) :
    List (Call F Src) :=
  [.glCreateShader type shader, .glShaderSource shader 1 text, .glCompileShader shader,
   .glGetShaderiv shader GL_COMPILE_STATUS status]

/-- The calls of an `AddShader` that returns. -/
def addShaderCalls (program shader : GLuint) (text : Src) (type : GLenum) (status : GLint) :
    List (Call F Src) :=
  compileCalls shader text type status ++ [.glAttachShader program shader]

/-- The calls of a `CompileShaders` up to and including the link status query. -/
def linkCalls (program vs fs : GLuint) (pVS pFS : Src) (cv cf link : GLint) :
    List (Call F Src) :=
  .glCreateProgram program ::
    (addShaderCalls program vs pVS GL_VERTEX_SHADER cv ++
     addShaderCalls program fs pFS GL_FRAGMENT_SHADER cf ++
     [.glLinkProgram program, .glGetProgramiv program GL_LINK_STATUS link])

/-- The calls of a `CompileShaders` up to and including the validate status query. -/
def validateCalls (program vs fs : GLuint) (pVS pFS : Src) (cv cf link valid : GLint) :
    List (Call F Src) :=
  linkCalls program vs fs pVS pFS cv cf link ++
    [.glValidateProgram program, .glGetProgramiv program GL_VALIDATE_STATUS valid]

/-- The calls of a `CompileShaders` that returns. -/
def buildCalls (program vs fs : GLuint) (pVS pFS : Src) (cv cf link valid : GLint) :
    List (Call F Src) :=
  validateCalls program vs fs pVS pFS cv cf link valid ++ [.glUseProgram program]

/-- The ways one `AddShader` can go: the calls it issues, how it ends, and what it
prints. -/
inductive AddShaderRun (program : GLuint) (text : Src) (type : GLenum) :
    List (Call F Src) → Outcome Unit → List Fprintf → Prop
  | createFails :
    AddShaderRun program text type [.glCreateShader type 0] (.exit 0)
      [⟨"Error creating shader type %d\n", [.d type]⟩]
  | compileFails (shader : GLuint) (log : String) (hs : shader ≠ 0) :
    AddShaderRun program text type
      (compileCalls shader text type 0 ++ [.glGetShaderInfoLog shader 1024 log]) (.exit 1)
      [⟨"Error compiling shader type %d: \x27%s\x27\n", [.d type, .s log]⟩]
  | attached (shader : GLuint) (status : GLint) (hs : shader ≠ 0) (hc : status ≠ 0) :
    AddShaderRun program text type (addShaderCalls program shader text type status) (.ret ()) []

/-- The ways one `CompileShaders` can go: the calls it issues, how it ends, and what
it prints. -/
inductive BuildRun (pVS pFS : Src) : List (Call F Src) → Outcome GLuint → List Fprintf → Prop
  | programFails :
    BuildRun pVS pFS [.glCreateProgram 0] (.exit 1) [⟨"Error creating shader program\n", []⟩]
  | vertexFails (program : GLuint) (new : List (Call F Src)) (status : Int)
      (e : List Fprintf) (hp : program ≠ 0)
      (hv : AddShaderRun program pVS GL_VERTEX_SHADER new (.exit status) e) :
    BuildRun pVS pFS (.glCreateProgram program :: new) (.exit status) e
  | fragmentFails (program vs : GLuint) (cv : GLint) (new : List (Call F Src)) (status : Int)
      (e : List Fprintf) (hp : program ≠ 0) (hvs : vs ≠ 0) (hcv : cv ≠ 0)
      (hf : AddShaderRun program pFS GL_FRAGMENT_SHADER new (.exit status) e) :
    BuildRun pVS pFS
      (.glCreateProgram program :: (addShaderCalls program vs pVS GL_VERTEX_SHADER cv ++ new))
      (.exit status) e
  | linkFails (program vs fs : GLuint) (cv cf : GLint) (log : String)
      (hp : program ≠ 0) (hvs : vs ≠ 0) (hcv : cv ≠ 0) (hfs : fs ≠ 0) (hcf : cf ≠ 0) :
    BuildRun pVS pFS
      (linkCalls program vs fs pVS pFS cv cf 0 ++ [.glGetProgramInfoLog program 1024 log])
      (.exit 1) [⟨"Error linking shader program: \x27%s\x27\n", [.s log]⟩]
  | validateFails (program vs fs : GLuint) (cv cf link : GLint) (log : String)
      (hp : program ≠ 0) (hvs : vs ≠ 0) (hcv : cv ≠ 0) (hfs : fs ≠ 0) (hcf : cf ≠ 0)
      (hl : link ≠ 0) :
    BuildRun pVS pFS
      (validateCalls program vs fs pVS pFS cv cf link 0 ++
        [.glGetProgramInfoLog program 1024 log])
      (.exit 1) [⟨"Invalid shader program: \x27%s\x27\n", [.s log]⟩]
  | built (program vs fs : GLuint) (cv cf link valid : GLint)
      (hp : program ≠ 0) (hvs : vs ≠ 0) (hcv : cv ≠ 0) (hfs : fs ≠ 0) (hcf : cf ≠ 0)
      (hl : link ≠ 0) (hval : valid ≠ 0) :
    BuildRun pVS pFS (buildCalls program vs fs pVS pFS cv cf link valid) (.ret program) []

/-- The calls of `generateObjectBuffer`. -/
def uploadCalls (vbo : GLuint) (vertices colors : List F) : List (Call F Src) :=
  [.glGenBuffers 1 [vbo], .glBindBuffer GL_ARRAY_BUFFER vbo,
   .glBufferData GL_ARRAY_BUFFER 84 none GL_STATIC_DRAW,
   .glBufferSubData GL_ARRAY_BUFFER 0 36 (floatBytes vertices),
   .glBufferSubData GL_ARRAY_BUFFER 36 48 (floatBytes colors)]

/-- The calls of `linkCurrentBuffertoShader`. -/
def describeCalls (program vao vbo : GLuint) (positionLoc colorLoc : GLint) :
    List (Call F Src) :=
  [.glGetAttribLocation program "vPosition" positionLoc,
   .glGetAttribLocation program "vColor" colorLoc,
   .glBindVertexArray vao,
   .glBindBuffer GL_ARRAY_BUFFER vbo,
   .glEnableVertexAttribArray (toGLuint positionLoc),
   .glVertexAttribPointer (toGLuint positionLoc) 3 GL_FLOAT false 0 0,
   .glEnableVertexAttribArray (toGLuint colorLoc),
   .glVertexAttribPointer (toGLuint colorLoc) 4 GL_FLOAT false 0 36]

/-- The three calls that end an iteration of the loop of `init`. -/
def elementCalls (vao ebo : GLuint) : List (Call F Src) :=
  [.glBindVertexArray vao, .glBindBuffer GL_ELEMENT_ARRAY_BUFFER ebo,
   .glBufferData GL_ELEMENT_ARRAY_BUFFER 12 (some (uintBytes [0, 1, 2])) GL_STATIC_DRAW]

/-- The handles and statuses the driver hands out during one iteration of the loop
of `init` that runs to its end. -/
structure Handles where
  program : GLuint
  vs : GLuint
  fs : GLuint
  cv : GLint
  cf : GLint
  link : GLint
  valid : GLint
  vbo : GLuint
  positionLoc : GLint
  colorLoc : GLint

end BuildShapes

/-! ## Two concrete drivers -/

/-- A driver for which every step succeeds: each created object gets a handle not
used before, every status is `GL_TRUE`, every log is empty, and the two vertex shader
inputs sit at locations 0 and 1. -/
def healthyDriver (F Src : Type) : Driver F Src :=
  { glCreateProgram := fun h => h.length + 1
    glCreateShader := fun h _ => h.length + 1
    glGetShaderiv := fun _ _ _ => 1
    glGetShaderInfoLog := fun _ _ _ => ""
    glGetProgramiv := fun _ _ _ => 1
    glGetProgramInfoLog := fun _ _ _ => ""
    glGenBuffers := fun h j => 2 * h.length + j + 1
    glGenVertexArrays := fun h j => 2 * h.length + j + 1
    glGetAttribLocation := fun _ _ name =>
      if name = "vPosition" then 0 else if name = "vColor" then 1 else -1 }

/-- A driver that cannot create shader objects: `glCreateShader` returns 0. -/
def noShaderDriver (F Src : Type) : Driver F Src :=
  { healthyDriver F Src with glCreateShader := fun _ _ => 0 }

/-- The calls of one iteration of the loop of `init` that runs to its end. -/
def iterationCalls {F : Type} [OfScientific F] [Neg F] (i : Fin 2) (vao ebo : GLuint)
    (hd : Handles) : List (Call F (Shader F)) :=
  buildCalls hd.program hd.vs hd.fs pVS (pFS i) hd.cv hd.cf hd.link hd.valid ++
    uploadCalls hd.vbo (vertices i) colors ++
    describeCalls hd.program vao hd.vbo hd.positionLoc hd.colorLoc ++
    elementCalls vao ebo

section BuildTheorems

variable {F Src : Type}

theorem Faithful_append (d : Driver F Src) (h a b : List (Call F Src)) :
    Faithful d h (a ++ b) ↔ Faithful d h a ∧ Faithful d (h ++ a) b := by
  induction a generalizing h with
  | nil => simp [Faithful]
  | cons c a ih => simp [Faithful, ih, and_assoc]

/-- Issuing a call that records the driver's answer keeps the calls issued since the
history `h0` faithful to the driver. -/
theorem faithful_call (d : Driver F Src) (h0 : List (Call F Src)) (w : World F Src)
    (c : Call F Src) (hw : ∃ new, w.calls = h0 ++ new ∧ Faithful d h0 new)
    (hc : c.answeredBy d w.calls) :
    ∃ new, (w.call c).calls = h0 ++ new ∧ Faithful d h0 new := by
  obtain ⟨new, hcalls, hf⟩ := hw
  refine ⟨new ++ [c], by simp [World.call, hcalls], ?_⟩
  rw [Faithful_append]
  refine ⟨hf, ?_⟩
  rw [← hcalls]
  exact ⟨hc, trivial⟩

theorem faithful_fprintf (d : Driver F Src) (h0 : List (Call F Src)) (w : World F Src)
    (fmt : String) (args : List FArg)
    (hw : ∃ new, w.calls = h0 ++ new ∧ Faithful d h0 new) :
    ∃ new, (w.fprintf fmt args).calls = h0 ++ new ∧ Faithful d h0 new := hw

theorem AddShader_faithful (d : Driver F Src) (h0 : List (Call F Src)) (w : World F Src)
    (program : GLuint) (text : Src) (type : GLenum)
    (hw : ∃ new, w.calls = h0 ++ new ∧ Faithful d h0 new) :
    ∃ new, (AddShader d w program text type).2.calls = h0 ++ new ∧ Faithful d h0 new := by
  unfold AddShader
  dsimp only
  split_ifs with h1 h2
  · exact faithful_fprintf d h0 _ _ _ (faithful_call d h0 _ _ hw rfl)
  · exact faithful_fprintf d h0 _ _ _
      (faithful_call d h0 _ _
        (faithful_call d h0 _ _
          (faithful_call d h0 _ _
            (faithful_call d h0 _ _ (faithful_call d h0 _ _ hw rfl) trivial) trivial) rfl) rfl)
  · exact faithful_call d h0 _ _
      (faithful_call d h0 _ _
        (faithful_call d h0 _ _
          (faithful_call d h0 _ _ (faithful_call d h0 _ _ hw rfl) trivial) trivial) rfl) trivial

theorem CompileShaders_faithful (d : Driver F Src) (h0 : List (Call F Src)) (w : World F Src)
    (pVS pFS : Src) (hw : ∃ new, w.calls = h0 ++ new ∧ Faithful d h0 new) :
    ∃ new, (CompileShaders d w pVS pFS).2.calls = h0 ++ new ∧ Faithful d h0 new := by
  unfold CompileShaders
  dsimp only
  split_ifs with hp
  · exact faithful_fprintf d h0 _ _ _ (faithful_call d h0 _ _ hw rfl)
  · have hA := AddShader_faithful d h0 _ (d.glCreateProgram w.calls) pVS GL_VERTEX_SHADER
      (faithful_call d h0 w (.glCreateProgram (d.glCreateProgram w.calls)) hw rfl)
    split
    · rename_i st w1 heq
      rw [heq] at hA
      exact hA
    · rename_i u w1 heq
      rw [heq] at hA
      have hB := AddShader_faithful d h0 w1 (d.glCreateProgram w.calls) pFS
        GL_FRAGMENT_SHADER hA
      split
      · rename_i st w2 heq2
        rw [heq2] at hB
        exact hB
      · rename_i u2 w2 heq2
        rw [heq2] at hB
        dsimp only at hB ⊢
        split_ifs with hl hv
        · exact faithful_fprintf d h0 _ _ _
            (faithful_call d h0 _ _
              (faithful_call d h0 _ _ (faithful_call d h0 _ _ hB trivial) rfl) rfl)
        · exact faithful_fprintf d h0 _ _ _
            (faithful_call d h0 _ _
              (faithful_call d h0 _ _
                (faithful_call d h0 _ _
                  (faithful_call d h0 _ _ (faithful_call d h0 _ _ hB trivial) rfl) trivial)
                rfl) rfl)
        · exact faithful_call d h0 _ _
            (faithful_call d h0 _ _
              (faithful_call d h0 _ _
                (faithful_call d h0 _ _ (faithful_call d h0 _ _ hB trivial) rfl) trivial)
              rfl) trivial

theorem AddShader_run (d : Driver F Src) (w : World F Src) (program : GLuint) (text : Src)
    (type : GLenum) :
    ∃ new out e, AddShaderRun program text type new out e ∧
      AddShader d w program text type =
        (out, { w with calls := w.calls ++ new, err := w.err ++ e }) := by
  unfold AddShader
  simp only [World.call, World.fprintf]
  generalize d.glCreateShader w.calls type = shader
  generalize d.glGetShaderiv _ shader GL_COMPILE_STATUS = status
  generalize d.glGetShaderInfoLog _ shader 1024 = log
  split_ifs with h1 h2
  · subst h1
    exact ⟨_, _, _, .createFails, by simp⟩
  · subst h2
    exact ⟨_, _, _, .compileFails shader log h1, by simp [compileCalls]⟩
  · exact ⟨_, _, _, .attached shader status h1 h2, by simp [compileCalls, addShaderCalls]⟩

theorem CompileShaders_run (d : Driver F Src) (w : World F Src) (pVS pFS : Src) :
    ∃ new out e, BuildRun pVS pFS new out e ∧
      CompileShaders d w pVS pFS =
        (out, { w with calls := w.calls ++ new, err := w.err ++ e }) := by
  unfold CompileShaders
  simp only [World.call, World.fprintf]
  split_ifs with hp
  · refine ⟨_, _, _, .programFails, ?_⟩
    simp [hp]
  · obtain ⟨n1, o1, e1, r1, h1⟩ := AddShader_run d
      { w with calls := w.calls ++ [.glCreateProgram (d.glCreateProgram w.calls)] }
      (d.glCreateProgram w.calls) pVS GL_VERTEX_SHADER
    rw [h1]
    cases r1 with
    | createFails => exact ⟨_, _, _, .vertexFails _ _ _ _ hp .createFails, by simp⟩
    | compileFails s log hs =>
      exact ⟨_, _, _, .vertexFails _ _ _ _ hp (.compileFails s log hs), by simp⟩
    | attached vs cv hvs hcv =>
      simp only []
      obtain ⟨n2, o2, e2, r2, h2⟩ := AddShader_run d
        { w with
          calls := (w.calls ++ [.glCreateProgram (d.glCreateProgram w.calls)]) ++
            addShaderCalls (d.glCreateProgram w.calls) vs pVS GL_VERTEX_SHADER cv
          err := w.err ++ [] }
        (d.glCreateProgram w.calls) pFS GL_FRAGMENT_SHADER
      rw [h2]
      cases r2 with
      | createFails =>
        exact ⟨_, _, _, .fragmentFails _ _ _ _ _ _ hp hvs hcv .createFails, by simp⟩
      | compileFails s log hs =>
        exact ⟨_, _, _, .fragmentFails _ _ _ _ _ _ hp hvs hcv (.compileFails s log hs), by simp⟩
      | attached fs cf hfs hcf =>
        simp only []
        generalize d.glGetProgramiv _ _ GL_LINK_STATUS = link
        generalize d.glGetProgramiv _ _ GL_VALIDATE_STATUS = valid
        generalize d.glGetProgramInfoLog _ _ 1024 = log1
        generalize d.glGetProgramInfoLog _ _ 1024 = log2
        split_ifs with hl hv
        · subst hl
          exact ⟨_, _, _, .linkFails _ vs fs cv cf log1 hp hvs hcv hfs hcf, by simp [linkCalls]⟩
        · subst hv
          exact ⟨_, _, _, .validateFails _ vs fs cv cf link log2 hp hvs hcv hfs hcf hl,
            by simp [linkCalls, validateCalls]⟩
        · exact ⟨_, _, _, .built _ vs fs cv cf link valid hp hvs hcv hfs hcf hl hv,
            by simp [linkCalls, validateCalls, buildCalls]⟩


/-- C1: for every driver `d`, `CompileShaders` returns a program handle exactly when
`d` reports success at program creation, both shader creations, both compilations,
linking and validation (`StepsSucceed`).  Every value recorded in the calls it issues
is the answer `d` gave at that moment (`Faithful`), the handle returned is the one `d`
gave for `glCreateProgram`, and a returning build prints nothing; equivalently the
status reports in its calls are these seven, all successful.  Otherwise the process
exits: some call `f` reports a failure, no call before it does, the only calls after
it are information log queries, so no attach, link, validate or use follows the
failing step, no `glUseProgram` is issued at all, and exactly one diagnostic is
written to `stderr`. -/
theorem CompileShaders_returns_iff_all_steps_succeed (d : Driver F Src) (w : World F Src)
    (pVS pFS : Src) :
    ∃ new : List (Call F Src),
      (CompileShaders d w pVS pFS).2.calls = w.calls ++ new ∧
      Faithful d w.calls new ∧
      ((∃ p, (CompileShaders d w pVS pFS).1 = .ret p) ↔ StepsSucceed d w.calls pVS pFS) ∧
      (∀ p, (CompileShaders d w pVS pFS).1 = .ret p → p = d.glCreateProgram w.calls ∧ p ≠ 0) ∧
      ((∃ p, (CompileShaders d w pVS pFS).1 = .ret p) ↔
        new.filterMap Call.report =
          [(.programCreation, true), (.shaderCreation GL_VERTEX_SHADER, true),
           (.compilation, true), (.shaderCreation GL_FRAGMENT_SHADER, true),
           (.compilation, true), (.linking, true), (.validation, true)]) ∧
      ((∃ p, (CompileShaders d w pVS pFS).1 = .ret p) →
        (CompileShaders d w pVS pFS).2.err = w.err) ∧
      ((∃ p, (CompileShaders d w pVS pFS).1 = .ret p) ∨
        ∃ status n f diag,
          (CompileShaders d w pVS pFS).1 = .exit status ∧
          (CompileShaders d w pVS pFS).2.err = w.err ++ [diag] ∧
          new.get? n = some f ∧ f.reportsFailure = true ∧
          (∀ c ∈ new.take n, c.reportsFailure = false) ∧
          (∀ c ∈ new.drop (n + 1), c.isInfoLog = true) ∧
          (∀ c ∈ new.drop n, c.isBuildAction = false) ∧
          (∀ c ∈ new, ∀ p, c ≠ .glUseProgram p)) := by
  obtain ⟨new, out, e, hrun, heq⟩ := CompileShaders_run d w pVS pFS
  obtain ⟨new', hcalls, hF⟩ := CompileShaders_faithful d w.calls w pVS pFS
    ⟨[], by simp, trivial⟩
  rw [heq] at hcalls
  have hnew : new' = new := (List.append_cancel_left hcalls).symm
  subst hnew
  clear hcalls
  rw [heq]
  refine ⟨new', rfl, hF, ?_⟩
  cases hrun with
  | programFails =>
    simp only [Faithful, Call.answeredBy, and_true] at hF
    refine ⟨?_, by simp, by simp [Call.report], by simp, Or.inr ⟨1, 0, _, _, rfl, rfl, rfl, ?_⟩⟩
    · simp [StepsSucceed, ← hF]
    · simp [Call.report, Call.reportsFailure, Call.isBuildAction]
  | vertexFails program n1 status e hp hv =>
    cases hv with
    | createFails =>
      simp only [Faithful, Call.answeredBy, List.append_assoc, List.cons_append,
        List.nil_append, and_true, true_and] at hF
      obtain ⟨e1, e2⟩ := hF
      refine ⟨?_, by simp, by simp [Call.report], by simp,
        Or.inr ⟨0, 1, _, _, rfl, rfl, rfl, ?_⟩⟩
      · simp only [StepsSucceed, List.append_assoc, List.cons_append, List.nil_append]
        rw [← e1, ← e2]
        simp
      · simp [Call.report, Call.reportsFailure, Call.isBuildAction, hp]
    | compileFails s log hs =>
      simp only [Faithful, Call.answeredBy, compileCalls, List.append_assoc, List.cons_append,
        List.nil_append, and_true, true_and] at hF
      obtain ⟨e1, e2, e3, -⟩ := hF
      refine ⟨?_, by simp, by simp [Call.report, compileCalls], by simp,
        Or.inr ⟨1, 4, _, _, rfl, rfl, rfl, ?_⟩⟩
      · simp only [StepsSucceed, List.append_assoc, List.cons_append, List.nil_append]
        rw [← e1, ← e2, ← e3]
        simp
      · simp [Call.report, Call.reportsFailure, Call.isBuildAction, Call.isInfoLog,
          compileCalls, hp, hs]
  | fragmentFails program vs cv n2 status e hp hvs hcv hf =>
    cases hf with
    | createFails =>
      simp only [Faithful, Call.answeredBy, addShaderCalls, compileCalls, List.append_assoc,
        List.cons_append, List.nil_append, and_true, true_and] at hF
      obtain ⟨e1, e2, e3, e4⟩ := hF
      refine ⟨?_, by simp, by simp [Call.report, compileCalls, addShaderCalls], by simp,
        Or.inr ⟨0, 6, _, _, rfl, rfl, rfl, ?_⟩⟩
      · simp only [StepsSucceed, List.append_assoc, List.cons_append, List.nil_append]
        rw [← e1, ← e2, ← e3, ← e4]
        simp
      · simp [Call.report, Call.reportsFailure, Call.isBuildAction, Call.isInfoLog,
          compileCalls, addShaderCalls, hp, hvs, hcv]
    | compileFails s log hs =>
      simp only [Faithful, Call.answeredBy, addShaderCalls, compileCalls, List.append_assoc,
        List.cons_append, List.nil_append, and_true, true_and] at hF
      obtain ⟨e1, e2, e3, e4, e5, -⟩ := hF
      refine ⟨?_, by simp, by simp [Call.report, compileCalls, addShaderCalls], by simp,
        Or.inr ⟨1, 9, _, _, rfl, rfl, rfl, ?_⟩⟩
      · simp only [StepsSucceed, List.append_assoc, List.cons_append, List.nil_append]
        rw [← e1, ← e2, ← e3, ← e4, ← e5]
        simp
      · simp [Call.report, Call.reportsFailure, Call.isBuildAction, Call.isInfoLog,
          compileCalls, addShaderCalls, hp, hvs, hcv, hs]
  | linkFails program vs fs cv cf log hp hvs hcv hfs hcf =>
    simp only [Faithful, Call.answeredBy, linkCalls, addShaderCalls, compileCalls,
      List.append_assoc, List.cons_append, List.nil_append, and_true, true_and] at hF
    obtain ⟨e1, e2, e3, e4, e5, e6, -⟩ := hF
    refine ⟨?_, by simp, by simp [Call.report, compileCalls, addShaderCalls, linkCalls],
      by simp, Or.inr ⟨1, 12, _, _, rfl, rfl, rfl, ?_⟩⟩
    · simp only [StepsSucceed, List.append_assoc, List.cons_append, List.nil_append]
      rw [← e1, ← e2, ← e3, ← e4, ← e5, ← e6]
      simp
    · simp [Call.report, Call.reportsFailure, Call.isBuildAction, Call.isInfoLog,
        compileCalls, addShaderCalls, linkCalls, hp, hvs, hcv, hfs, hcf]
  | validateFails program vs fs cv cf link log hp hvs hcv hfs hcf hl =>
    simp only [Faithful, Call.answeredBy, validateCalls, linkCalls, addShaderCalls,
      compileCalls, List.append_assoc, List.cons_append, List.nil_append, and_true,
      true_and] at hF
    obtain ⟨e1, e2, e3, e4, e5, e6, e7, -⟩ := hF
    refine ⟨?_, by simp,
      by simp [Call.report, compileCalls, addShaderCalls, linkCalls, validateCalls],
      by simp, Or.inr ⟨1, 14, _, _, rfl, rfl, rfl, ?_⟩⟩
    · simp only [StepsSucceed, List.append_assoc, List.cons_append, List.nil_append]
      rw [← e1, ← e2, ← e3, ← e4, ← e5, ← e6, ← e7]
      simp
    · simp [Call.report, Call.reportsFailure, Call.isBuildAction, Call.isInfoLog,
        compileCalls, addShaderCalls, linkCalls, validateCalls, hp, hvs, hcv, hfs, hcf, hl]
  | built program vs fs cv cf link valid hp hvs hcv hfs hcf hl hval =>
    simp only [Faithful, Call.answeredBy, buildCalls, validateCalls, linkCalls, addShaderCalls,
      compileCalls, List.append_assoc, List.cons_append, List.nil_append, and_true,
      true_and] at hF
    obtain ⟨e1, e2, e3, e4, e5, e6, e7⟩ := hF
    refine ⟨?_, ?_, ?_, by simp, Or.inl ⟨_, rfl⟩⟩
    · simp only [StepsSucceed, List.append_assoc, List.cons_append, List.nil_append]
      rw [← e1, ← e2, ← e3, ← e4, ← e5, ← e6, ← e7]
      exact iff_of_true ⟨_, rfl⟩ ⟨hp, hvs, hcv, hfs, hcf, hl, hval⟩
    · intro p hpp
      simp only [Outcome.ret.injEq] at hpp
      subst hpp
      exact ⟨e1, hp⟩
    · simp [Call.report, compileCalls, addShaderCalls, linkCalls, validateCalls, buildCalls,
        hp, hvs, hcv, hfs, hcf, hl, hval]

/-- C2: when `CompileShaders` returns (every driver step succeeded), the calls it
issued are, in order: create the program; create, source, compile, query and attach a
vertex shader made from the first text; the same for a fragment shader made from the
second text; link; validate; activate.  The handle returned is the handle of the
program created, linked, validated and activated.  In the library state reached just
before `glLinkProgram`, the program has exactly the vertex shader and the fragment
shader attached, one of each (the two shader objects having different names). -/
theorem CompileShaders_call_order (d : Driver F Src) (w w' : World F Src) (pVS pFS : Src)
    (p : GLuint) (h : CompileShaders d w pVS pFS = (.ret p, w')) :
    ∃ (vs fs : GLuint) (cv cf link valid : GLint) (pre : List (Call F Src)),
      p ≠ 0 ∧ vs ≠ 0 ∧ fs ≠ 0 ∧
      pre =
        [.glCreateProgram p,
         .glCreateShader GL_VERTEX_SHADER vs, .glShaderSource vs 1 pVS, .glCompileShader vs,
         .glGetShaderiv vs GL_COMPILE_STATUS cv, .glAttachShader p vs,
         .glCreateShader GL_FRAGMENT_SHADER fs, .glShaderSource fs 1 pFS, .glCompileShader fs,
         .glGetShaderiv fs GL_COMPILE_STATUS cf, .glAttachShader p fs] ∧
      w'.calls = w.calls ++ pre ++
        [.glLinkProgram p, .glGetProgramiv p GL_LINK_STATUS link,
         .glValidateProgram p, .glGetProgramiv p GL_VALIDATE_STATUS valid,
         .glUseProgram p] ∧
      (vs ≠ fs → ∀ maxAttribs : Nat,
        (glRun maxAttribs (w.calls ++ pre)).programs p = some [vs, fs] ∧
        (glRun maxAttribs (w.calls ++ pre)).attachedOfType p GL_VERTEX_SHADER = [vs] ∧
        (glRun maxAttribs (w.calls ++ pre)).attachedOfType p GL_FRAGMENT_SHADER = [fs] ∧
        (glRun maxAttribs (w.calls ++ pre)).sourceOf vs = some pVS ∧
        (glRun maxAttribs (w.calls ++ pre)).sourceOf fs = some pFS) := by
  obtain ⟨new, out, e, hrun, heq⟩ := CompileShaders_run d w pVS pFS
  rw [heq] at h
  cases hrun with
  | programFails => simp at h
  | vertexFails => simp at h
  | fragmentFails => simp at h
  | linkFails => simp at h
  | validateFails => simp at h
  | built program vs fs cv cf link valid hp hvs hcv hfs hcf hl hval =>
    simp only [Prod.mk.injEq, Outcome.ret.injEq] at h
    obtain ⟨hpp, hw⟩ := h
    subst hpp
    subst hw
    refine ⟨vs, fs, cv, cf, link, valid, _, hp, hvs, hfs, rfl, ?_, ?_⟩
    · simp [buildCalls, validateCalls, linkCalls, addShaderCalls, compileCalls]
    · intro hne m
      have hne' : fs ≠ vs := fun hh => hne hh.symm
      simp [glRun, List.foldl_append, glStep, GLState.attachedOfType, GLState.sourceOf,
        Function.update, hp, hvs, hfs, hne, hne']

/-- C2 (witness): with the healthy driver the build returns, and the call order holds. -/
theorem CompileShaders_call_order_witness :
    ∃ (vs fs : GLuint) (cv cf link valid : GLint) (pre : List (Call Nat String)),
      CompileShaders (healthyDriver Nat String) (World.start Nat String) "vs" "fs" =
        (.ret 1, (CompileShaders (healthyDriver Nat String) (World.start Nat String)
          "vs" "fs").2) ∧
      (1 : GLuint) ≠ 0 ∧ vs ≠ 0 ∧ fs ≠ 0 ∧
      pre =
        [.glCreateProgram 1,
         .glCreateShader GL_VERTEX_SHADER vs, .glShaderSource vs 1 "vs", .glCompileShader vs,
         .glGetShaderiv vs GL_COMPILE_STATUS cv, .glAttachShader 1 vs,
         .glCreateShader GL_FRAGMENT_SHADER fs, .glShaderSource fs 1 "fs", .glCompileShader fs,
         .glGetShaderiv fs GL_COMPILE_STATUS cf, .glAttachShader 1 fs] ∧
      (CompileShaders (healthyDriver Nat String) (World.start Nat String) "vs" "fs").2.calls =
        (World.start Nat String).calls ++ pre ++
        [.glLinkProgram 1, .glGetProgramiv 1 GL_LINK_STATUS link,
         .glValidateProgram 1, .glGetProgramiv 1 GL_VALIDATE_STATUS valid,
         .glUseProgram 1] ∧
      (vs ≠ fs → ∀ maxAttribs : Nat,
        (glRun maxAttribs ((World.start Nat String).calls ++ pre)).programs 1 = some [vs, fs] ∧
        (glRun maxAttribs ((World.start Nat String).calls ++ pre)).attachedOfType 1
          GL_VERTEX_SHADER = [vs] ∧
        (glRun maxAttribs ((World.start Nat String).calls ++ pre)).attachedOfType 1
          GL_FRAGMENT_SHADER = [fs] ∧
        (glRun maxAttribs ((World.start Nat String).calls ++ pre)).sourceOf vs = some "vs" ∧
        (glRun maxAttribs ((World.start Nat String).calls ++ pre)).sourceOf fs = some "fs") :=
  CompileShaders_call_order (healthyDriver Nat String) (World.start Nat String)
    (CompileShaders (healthyDriver Nat String) (World.start Nat String) "vs" "fs").2 "vs" "fs" 1
    rfl |>.imp fun _ ⟨fs, cv, cf, link, valid, pre, hrest⟩ =>
      ⟨fs, cv, cf, link, valid, pre, rfl, hrest⟩

/-- C10: with a driver whose `glCreateShader` returns 0, the shader-object-creation
failure path of `AddShader` ends the process with exit status 0, not 1. -/
theorem shader_creation_failure_exits_with_status_zero :
    (AddShader (noShaderDriver Nat String) (World.start Nat String) 1 "vs"
        GL_VERTEX_SHADER).1 = Outcome.exit 0 ∧
    (CompileShaders (noShaderDriver Nat String) (World.start Nat String) "vs" "fs").1 =
      Outcome.exit 0 := by
  constructor <;> rfl

end BuildTheorems

section UploadTheorems

variable {F Src : Type}

theorem glRun_append (m : Nat) (a b : List (Call F Src)) :
    glRun m (a ++ b) = b.foldl (glStep m) (glRun m a) := by
  simp [glRun, List.foldl_append]

theorem clientRead_length (data : List (Byte F)) (size : Nat) :
    (clientRead data size).length = size := by
  simp [clientRead]

theorem newStore_length (size : Nat) (data : Option (List (Byte F))) :
    (newStore size data).length = size := by
  cases data <;> simp [newStore, clientRead]

theorem Store.write_length (store : Store F) (offset size : Nat) (data : List (Byte F))
    (h : offset + size ≤ store.length) :
    (store.write offset size data).length = store.length := by
  simp [Store.write, clientRead]
  omega

theorem bytesOf_length (xs : List (Scalar F)) : (bytesOf xs).length = 4 * xs.length := by
  induction xs with
  | nil => rfl
  | cons x xs ih => simp [bytesOf, ih]; omega

theorem floatBytes_length (xs : List F) : (floatBytes xs).length = 4 * xs.length := by
  simp [floatBytes, bytesOf_length]

theorem bytesOf_append (xs ys : List (Scalar F)) :
    bytesOf (xs ++ ys) = bytesOf xs ++ bytesOf ys := by
  induction xs with
  | nil => rfl
  | cons x xs ih => simp [bytesOf, ih]

theorem length_nine {α : Type} (l : List α) (h : l.length = 9) :
    ∃ a0 a1 a2 a3 a4 a5 a6 a7 a8, l = [a0, a1, a2, a3, a4, a5, a6, a7, a8] := by
  rcases l with _ | ⟨a0, _ | ⟨a1, _ | ⟨a2, _ | ⟨a3, _ | ⟨a4, _ | ⟨a5, _ | ⟨a6, _ | ⟨a7,
    _ | ⟨a8, _ | ⟨a9, l⟩⟩⟩⟩⟩⟩⟩⟩⟩⟩ <;> simp at h
  exact ⟨a0, a1, a2, a3, a4, a5, a6, a7, a8, rfl⟩

theorem length_twelve {α : Type} (l : List α) (h : l.length = 12) :
    ∃ a0 a1 a2 a3 a4 a5 a6 a7 a8 a9 a10 a11,
      l = [a0, a1, a2, a3, a4, a5, a6, a7, a8, a9, a10, a11] := by
  rcases l with _ | ⟨a0, _ | ⟨a1, _ | ⟨a2, _ | ⟨a3, _ | ⟨a4, _ | ⟨a5, _ | ⟨a6, _ | ⟨a7,
    _ | ⟨a8, _ | ⟨a9, _ | ⟨a10, _ | ⟨a11, _ | ⟨a12, l⟩⟩⟩⟩⟩⟩⟩⟩⟩⟩⟩⟩⟩ <;> simp at h
  exact ⟨a0, a1, a2, a3, a4, a5, a6, a7, a8, a9, a10, a11, rfl⟩

/-- The store that the three data calls of `generateObjectBuffer` leave behind. -/
theorem upload_store {α : Type} (vertices colors : List α) (hv : vertices.length = 9)
    (hc : colors.length = 12) :
    Store.write (Store.write (newStore 84 none) 0 36 (floatBytes vertices)) 36 48
        (floatBytes colors) =
      (floatBytes (vertices ++ colors)).map some := by
  obtain ⟨a0, a1, a2, a3, a4, a5, a6, a7, a8, rfl⟩ := length_nine vertices hv
  obtain ⟨b0, b1, b2, b3, b4, b5, b6, b7, b8, b9, b10, b11, rfl⟩ := length_twelve colors hc
  rfl

theorem generateObjectBuffer_calls (d : Driver F Src) (w : World F Src)
    (vertices colors : List F) :
    (generateObjectBuffer d w vertices colors).2.calls = w.calls ++
      [.glGenBuffers 1 [d.glGenBuffers w.calls 0],
       .glBindBuffer GL_ARRAY_BUFFER (d.glGenBuffers w.calls 0),
       .glBufferData GL_ARRAY_BUFFER 84 none GL_STATIC_DRAW,
       .glBufferSubData GL_ARRAY_BUFFER 0 36 (floatBytes vertices),
       .glBufferSubData GL_ARRAY_BUFFER 36 48 (floatBytes colors)] := by
  simp [generateObjectBuffer, World.call, sizeofGLfloat]

theorem generateObjectBuffer_state (m : Nat) (d : Driver F Src) (w : World F Src)
    (vertices colors : List F) (hv : vertices.length = 9) (hc : colors.length = 12)
    (hvbo : d.glGenBuffers w.calls 0 ≠ 0) :
    glRun m (generateObjectBuffer d w vertices colors).2.calls =
      { glRun m w.calls with
        arrayBuffer := d.glGenBuffers w.calls 0
        buffers := Function.update (glRun m w.calls).buffers (d.glGenBuffers w.calls 0)
          (some ((floatBytes (vertices ++ colors)).map some)) } := by
  rw [generateObjectBuffer_calls, glRun_append, ← upload_store vertices colors hv hc]
  generalize glRun m w.calls = s
  generalize d.glGenBuffers w.calls 0 = vbo at hvbo
  simp [List.foldl, glStep, GLState.boundBuffer, hvbo, newStore_length, Store.write_length]

/-- C3: for a position array of 9 floats and a color array of 12 floats,
`generateObjectBuffer` generates one buffer name, binds it, and allocates one store
of `3*7` floats, 84 bytes, with no initial data; it writes the 36 bytes of the
positions at byte range `[0, 36)` and the 48 bytes of the colors at `[36, 84)`.
Every byte below 84 is written by exactly one of the two writes and no byte at or
above 84 is written, so the ranges are disjoint, adjacent and cover the allocation.
The buffer then holds the bytes of the positions followed by those of the colors,
every byte initialised (the driver having handed out a non-zero buffer name). -/
theorem generateObjectBuffer_layout (d : Driver F Src) (w : World F Src)
    (vertices colors : List F) (hv : vertices.length = 9) (hc : colors.length = 12) :
    (generateObjectBuffer d w vertices colors).1 = d.glGenBuffers w.calls 0 ∧
    (generateObjectBuffer d w vertices colors).2.calls = w.calls ++
      [.glGenBuffers 1 [d.glGenBuffers w.calls 0],
       .glBindBuffer GL_ARRAY_BUFFER (d.glGenBuffers w.calls 0),
       .glBufferData GL_ARRAY_BUFFER 84 none GL_STATIC_DRAW,
       .glBufferSubData GL_ARRAY_BUFFER 0 36 (floatBytes vertices),
       .glBufferSubData GL_ARRAY_BUFFER 36 48 (floatBytes colors)] ∧
    84 = 3 * 7 * sizeofGLfloat ∧
    (floatBytes vertices).length = 36 ∧ (floatBytes colors).length = 48 ∧
    (∀ b, timesWritten b ((generateObjectBuffer d w vertices colors).2.calls.drop
      w.calls.length) = if b < 84 then 1 else 0) ∧
    (d.glGenBuffers w.calls 0 ≠ 0 → ∀ maxAttribs : Nat,
      (glRun maxAttribs (generateObjectBuffer d w vertices colors).2.calls).buffers
          (d.glGenBuffers w.calls 0) =
        some ((floatBytes vertices ++ floatBytes colors).map some) ∧
      (floatBytes vertices ++ floatBytes colors).length = 84) := by
  refine ⟨rfl, generateObjectBuffer_calls d w vertices colors, rfl, ?_, ?_, ?_, ?_⟩
  · simp [floatBytes_length, hv]
  · simp [floatBytes_length, hc]
  · intro b
    rw [generateObjectBuffer_calls]
    simp only [List.drop_left, timesWritten]
    split_ifs <;> omega
  · intro hvbo m
    rw [generateObjectBuffer_state m d w vertices colors hv hc hvbo]
    simp [floatBytes, bytesOf_append, bytesOf_length, hv, hc]

/-- C3 (witness): the first triangle of `init`, uploaded through the healthy driver. -/
theorem generateObjectBuffer_layout_witness :
    (vertices 0 : List Rat).length = 9 ∧ (colors : List Rat).length = 12 ∧
    (glRun 16 (generateObjectBuffer (healthyDriver Rat String) (World.start Rat String)
        (vertices 0) colors).2.calls).buffers 1 =
      some ((floatBytes (vertices 0 : List Rat) ++ floatBytes (colors : List Rat)).map some) :=
  ⟨rfl, rfl,
    ((generateObjectBuffer_layout (healthyDriver Rat String) (World.start Rat String)
      (vertices 0) colors rfl rfl).2.2.2.2.2.2 (by decide) 16).1⟩

theorem linkCurrentBuffertoShader_calls (d : Driver F Src) (w : World F Src)
    (VAO VBO program : GLuint) :
    ∃ positionLoc colorLoc : GLint,
      (linkCurrentBuffertoShader d w VAO VBO program).calls = w.calls ++
        [.glGetAttribLocation program "vPosition" positionLoc,
         .glGetAttribLocation program "vColor" colorLoc,
         .glBindVertexArray VAO,
         .glBindBuffer GL_ARRAY_BUFFER VBO,
         .glEnableVertexAttribArray (toGLuint positionLoc),
         .glVertexAttribPointer (toGLuint positionLoc) 3 GL_FLOAT false 0 0,
         .glEnableVertexAttribArray (toGLuint colorLoc),
         .glVertexAttribPointer (toGLuint colorLoc) 4 GL_FLOAT false 0 36] :=
  ⟨d.glGetAttribLocation w.calls program "vPosition",
    d.glGetAttribLocation (w.calls ++ [.glGetAttribLocation program "vPosition"
      (d.glGetAttribLocation w.calls program "vPosition")]) program "vColor",
    by simp [linkCurrentBuffertoShader, World.call, BUFFER_OFFSET, sizeofGLfloat]⟩

/-- The state after the eight calls of `linkCurrentBuffertoShader`, seen from the
state `s` before them: buffers, shaders and programs are untouched. -/
theorem link_calls_keep_buffers (m : Nat) (s : GLState F Src) (VAO VBO program : GLuint)
    (positionLoc colorLoc : GLint) :
    (List.foldl (glStep m) s
        [.glGetAttribLocation program "vPosition" positionLoc,
         .glGetAttribLocation program "vColor" colorLoc,
         .glBindVertexArray VAO,
         .glBindBuffer GL_ARRAY_BUFFER VBO,
         .glEnableVertexAttribArray (toGLuint positionLoc),
         .glVertexAttribPointer (toGLuint positionLoc) 3 GL_FLOAT false 0 0,
         .glEnableVertexAttribArray (toGLuint colorLoc),
         .glVertexAttribPointer (toGLuint colorLoc) 4 GL_FLOAT false 0 36]).buffers =
      s.buffers := by
  simp only [List.foldl, glStep]
  split_ifs <;> rfl

/-- The vertex array state after the eight calls of `linkCurrentBuffertoShader`. -/
theorem link_calls_state (m : Nat) (s : GLState F Src) (VAO VBO program : GLuint)
    (positionLoc colorLoc : GLint) :
    (List.foldl (glStep m) s
        [.glGetAttribLocation program "vPosition" positionLoc,
         .glGetAttribLocation program "vColor" colorLoc,
         .glBindVertexArray VAO,
         .glBindBuffer GL_ARRAY_BUFFER VBO,
         .glEnableVertexAttribArray (toGLuint positionLoc),
         .glVertexAttribPointer (toGLuint positionLoc) 3 GL_FLOAT false 0 0,
         .glEnableVertexAttribArray (toGLuint colorLoc),
         .glVertexAttribPointer (toGLuint colorLoc) 4 GL_FLOAT false 0 36]) =
      { s with
        vertexArray := VAO
        arrayBuffer := VBO
        vertexArrays := Function.update s.vertexArrays VAO
          { elementBuffer := (s.vertexArrays VAO).elementBuffer
            attrib := fun a =>
              if a = toGLuint colorLoc ∧ toGLuint colorLoc < m then
                ⟨true, 4, GL_FLOAT, false, 0, 36, VBO⟩
              else if a = toGLuint positionLoc ∧ toGLuint positionLoc < m then
                ⟨true, 3, GL_FLOAT, false, 0, 0, VBO⟩
              else (s.vertexArrays VAO).attrib a } } := by
  simp only [List.foldl, glStep]
  by_cases hp : toGLuint positionLoc < m <;> by_cases hc : toGLuint colorLoc < m <;>
    simp [hp, hc, Function.update_idem]
  all_goals
    funext a
    simp only [Function.update_apply]
    congr 2
    funext b
    simp only [Function.update_apply]

theorem fetch_eq (s : GLState F Src) (a : VertexAttrib) (k : Nat) (store : Store F)
    (h : s.buffers a.buffer = some store) :
    s.fetch a k =
      if a.last k ≤ store.length then
        allBytes ((store.drop (a.first k)).take (a.size * sizeofGLfloat))
      else none := by
  simp [GLState.fetch, h]

theorem fetch_uploaded {α : Type} (vertices colors : List α) (hv : vertices.length = 9)
    (hc : colors.length = 12) (k : Nat) (hk : k < 3) :
    allBytes ((((floatBytes (vertices ++ colors)).map some).drop (4 * (3 * k))).take 12) =
      some (floatBytes ((vertices.drop (3 * k)).take 3)) ∧
    allBytes ((((floatBytes (vertices ++ colors)).map some).drop (36 + 4 * (4 * k))).take 16) =
      some (floatBytes ((colors.drop (4 * k)).take 4)) := by
  obtain ⟨a0, a1, a2, a3, a4, a5, a6, a7, a8, rfl⟩ := length_nine vertices hv
  obtain ⟨b0, b1, b2, b3, b4, b5, b6, b7, b8, b9, b10, b11, rfl⟩ := length_twelve colors hc
  interval_cases k <;> exact ⟨rfl, rfl⟩

/-- C6: the layout `linkCurrentBuffertoShader` describes agrees with the layout
`generateObjectBuffer` uploads.  The position pointer is 3 floats, stride 0, byte
offset 0; the color pointer is 4 floats, stride 0, byte offset 36, the offset of the
second `glBufferSubData`.  For every vertex `k < 3` the position attribute reads bytes
`[12k, 12k+12)`, which hold floats `3k..3k+2` of the position array, and the color
attribute reads bytes `[36+16k, 36+16k+16)`, which hold floats `4k..4k+3` of the color
array, all inside the 84 byte store.  These two descriptors are the state the vertex
array records at the two looked-up locations when these are valid and distinct. -/
theorem attribute_layout_agrees_with_upload (d : Driver F Src) (w : World F Src)
    (vertices colors : List F) (hv : vertices.length = 9) (hc : colors.length = 12)
    (VAO program : GLuint) :
    ∃ (vbo : GLuint) (positionLoc colorLoc : GLint) (w1 w2 : World F Src),
      generateObjectBuffer d w vertices colors = (vbo, w1) ∧
      linkCurrentBuffertoShader d w1 VAO vbo program = w2 ∧
      w1.calls = w.calls ++
        [.glGenBuffers 1 [vbo], .glBindBuffer GL_ARRAY_BUFFER vbo,
         .glBufferData GL_ARRAY_BUFFER 84 none GL_STATIC_DRAW,
         .glBufferSubData GL_ARRAY_BUFFER 0 36 (floatBytes vertices),
         .glBufferSubData GL_ARRAY_BUFFER 36 48 (floatBytes colors)] ∧
      w2.calls = w1.calls ++
        [.glGetAttribLocation program "vPosition" positionLoc,
         .glGetAttribLocation program "vColor" colorLoc,
         .glBindVertexArray VAO,
         .glBindBuffer GL_ARRAY_BUFFER vbo,
         .glEnableVertexAttribArray (toGLuint positionLoc),
         .glVertexAttribPointer (toGLuint positionLoc) 3 GL_FLOAT false 0 0,
         .glEnableVertexAttribArray (toGLuint colorLoc),
         .glVertexAttribPointer (toGLuint colorLoc) 4 GL_FLOAT false 0 36] ∧
      (vbo ≠ 0 → ∀ maxAttribs k : Nat, k < 3 →
        (glRun maxAttribs w2.calls).fetch ⟨true, 3, GL_FLOAT, false, 0, 0, vbo⟩ k =
          some (floatBytes ((vertices.drop (3 * k)).take 3)) ∧
        (glRun maxAttribs w2.calls).fetch ⟨true, 4, GL_FLOAT, false, 0, 36, vbo⟩ k =
          some (floatBytes ((colors.drop (4 * k)).take 4)) ∧
        VertexAttrib.first ⟨true, 3, GL_FLOAT, false, 0, 0, vbo⟩ k = 12 * k ∧
        VertexAttrib.last ⟨true, 3, GL_FLOAT, false, 0, 0, vbo⟩ k = 12 * k + 12 ∧
        VertexAttrib.first ⟨true, 4, GL_FLOAT, false, 0, 36, vbo⟩ k = 36 + 16 * k ∧
        VertexAttrib.last ⟨true, 4, GL_FLOAT, false, 0, 36, vbo⟩ k = 36 + 16 * k + 16 ∧
        VertexAttrib.last ⟨true, 3, GL_FLOAT, false, 0, 0, vbo⟩ k ≤ 36 ∧
        VertexAttrib.last ⟨true, 4, GL_FLOAT, false, 0, 36, vbo⟩ k ≤ 84 ∧
        (toGLuint positionLoc < maxAttribs → toGLuint colorLoc < maxAttribs →
          toGLuint positionLoc ≠ toGLuint colorLoc →
          ((glRun maxAttribs w2.calls).vertexArrays VAO).attrib (toGLuint positionLoc) =
            ⟨true, 3, GL_FLOAT, false, 0, 0, vbo⟩ ∧
          ((glRun maxAttribs w2.calls).vertexArrays VAO).attrib (toGLuint colorLoc) =
            ⟨true, 4, GL_FLOAT, false, 0, 36, vbo⟩)) := by
  obtain ⟨positionLoc, colorLoc, hl⟩ := linkCurrentBuffertoShader_calls d
    (generateObjectBuffer d w vertices colors).2 VAO (d.glGenBuffers w.calls 0) program
  refine ⟨d.glGenBuffers w.calls 0, positionLoc, colorLoc,
    (generateObjectBuffer d w vertices colors).2,
    linkCurrentBuffertoShader d (generateObjectBuffer d w vertices colors).2 VAO
      (d.glGenBuffers w.calls 0) program, rfl, rfl,
    generateObjectBuffer_calls d w vertices colors, hl, ?_⟩
  intro hvbo m k hk
  have hs := generateObjectBuffer_state m d w vertices colors hv hc hvbo
  have hf := fetch_uploaded vertices colors hv hc k hk
  have hfirst : ∀ a b : Nat, VertexAttrib.first ⟨true, a, GL_FLOAT, false, 0, b,
      d.glGenBuffers w.calls 0⟩ k = b + k * (a * 4) := by
    intro a b
    simp [VertexAttrib.first, VertexAttrib.effectiveStride, sizeofGLfloat]
  have hlast : ∀ a b : Nat, VertexAttrib.last ⟨true, a, GL_FLOAT, false, 0, b,
      d.glGenBuffers w.calls 0⟩ k = b + k * (a * 4) + a * 4 := by
    intro a b
    simp [VertexAttrib.last, hfirst, sizeofGLfloat]
  have hbuf : (glRun m (linkCurrentBuffertoShader d (generateObjectBuffer d w vertices
      colors).2 VAO (d.glGenBuffers w.calls 0) program).calls).buffers
        (d.glGenBuffers w.calls 0) =
      some ((floatBytes (vertices ++ colors)).map some) := by
    rw [hl, glRun_append, link_calls_keep_buffers, hs]
    simp
  have hlen : ((floatBytes (vertices ++ colors)).map some).length = 84 := by
    simp [floatBytes_length, hv, hc]
  refine ⟨?_, ?_, ?_, ?_, ?_, ?_, ?_, ?_, ?_⟩
  · rw [fetch_eq _ ⟨true, 3, GL_FLOAT, false, 0, 0, d.glGenBuffers w.calls 0⟩ k _ hbuf,
      hlast, hfirst, hlen, if_pos (by omega)]
    have h1 : 0 + k * (3 * 4) = 4 * (3 * k) := by omega
    rw [h1]
    exact hf.1
  · rw [fetch_eq _ ⟨true, 4, GL_FLOAT, false, 0, 36, d.glGenBuffers w.calls 0⟩ k _ hbuf,
      hlast, hfirst, hlen, if_pos (by omega)]
    have h1 : 36 + k * (4 * 4) = 36 + 4 * (4 * k) := by omega
    rw [h1]
    exact hf.2
  · rw [hfirst]; omega
  · rw [hlast]; omega
  · rw [hfirst]; omega
  · rw [hlast]; omega
  · rw [hlast]; omega
  · rw [hlast]; omega
  · intro hp hcv hne
    rw [hl, glRun_append, link_calls_state]
    simp [hp, hcv, hne]

/-- C6 (witness): the first triangle of `init` through the healthy driver. -/
theorem attribute_layout_agrees_with_upload_witness :
    (vertices 0 : List Rat).length = 9 ∧ (colors : List Rat).length = 12 ∧
    ∃ (vbo : GLuint) (_positionLoc _colorLoc : GLint) (w1 w2 : World Rat String),
      generateObjectBuffer (healthyDriver Rat String) (World.start Rat String)
        (vertices 0) colors = (vbo, w1) ∧
      linkCurrentBuffertoShader (healthyDriver Rat String) w1 7 vbo 9 = w2 ∧
      (vbo ≠ 0 → ∀ maxAttribs k : Nat, k < 3 →
        (glRun maxAttribs w2.calls).fetch ⟨true, 3, GL_FLOAT, false, 0, 0, vbo⟩ k =
          some (floatBytes (((vertices 0 : List Rat).drop (3 * k)).take 3)) ∧
        (glRun maxAttribs w2.calls).fetch ⟨true, 4, GL_FLOAT, false, 0, 36, vbo⟩ k =
          some (floatBytes (((colors : List Rat).drop (4 * k)).take 4))) :=
  ⟨rfl, rfl,
    (attribute_layout_agrees_with_upload (healthyDriver Rat String) (World.start Rat String)
      (vertices 0) colors rfl rfl 7 9).imp fun _ ⟨pl, cl, w1, w2, h1, h2, _, _, h5⟩ =>
        ⟨pl, cl, w1, w2, h1, h2, fun hne m k hk =>
          ⟨(h5 hne m k hk).1, (h5 hne m k hk).2.1⟩⟩⟩

end UploadTheorems

section StateTheorems

variable {F Src : Type}

end StateTheorems

section InitTheorems

variable {F : Type} [OfScientific F] [Neg F]

theorem generateObjectBuffer_eq {F Src : Type} (d : Driver F Src) (w : World F Src)
    (vertices colors : List F) :
    generateObjectBuffer d w vertices colors =
      (d.glGenBuffers w.calls 0,
       { w with calls := w.calls ++ uploadCalls (d.glGenBuffers w.calls 0) vertices colors }) := by
  simp [generateObjectBuffer, World.call, uploadCalls, sizeofGLfloat]

theorem linkCurrentBuffertoShader_eq {F Src : Type} (d : Driver F Src) (w : World F Src)
    (VAO VBO program : GLuint) :
    linkCurrentBuffertoShader d w VAO VBO program =
      { w with
        calls := w.calls ++ describeCalls program VAO VBO
          (d.glGetAttribLocation w.calls program "vPosition")
          (d.glGetAttribLocation (w.calls ++ [.glGetAttribLocation program "vPosition"
            (d.glGetAttribLocation w.calls program "vPosition")]) program "vColor") } := by
  simp [linkCurrentBuffertoShader, World.call, describeCalls, BUFFER_OFFSET, sizeofGLfloat]

theorem initBody_run (d : Driver F (Shader F)) (w w' : World F (Shader F)) (i : Fin 2)
    (h : initBody d w i = (.ret (), w')) :
    ∃ hd : Handles,
      hd.program ≠ 0 ∧ hd.vs ≠ 0 ∧ hd.fs ≠ 0 ∧
      w'.calls = w.calls ++ iterationCalls i (w.VAO i) (w.EBO i) hd ∧
      w'.err = w.err ∧
      w'.shaderProgramID = Function.update w.shaderProgramID i hd.program ∧
      w'.VBO = Function.update w.VBO i hd.vbo ∧
      w'.VAO = w.VAO ∧ w'.EBO = w.EBO := by
  unfold initBody at h
  obtain ⟨new, out, e, hrun, heq⟩ := CompileShaders_run d w pVS (pFS i)
  rw [heq] at h
  cases hrun with
  | programFails => simp at h
  | vertexFails => simp at h
  | fragmentFails => simp at h
  | linkFails => simp at h
  | validateFails => simp at h
  | built program vs fs cv cf link valid hp hvs hcv hfs hcf hl hval =>
    simp only [generateObjectBuffer_eq, linkCurrentBuffertoShader_eq, World.call,
      Function.update_same, Prod.mk.injEq, true_and] at h
    generalize d.glGenBuffers _ 0 = vbo at h
    generalize d.glGetAttribLocation _ _ "vPosition" = pl at h
    generalize d.glGetAttribLocation _ _ "vColor" = cl at h
    subst h
    refine ⟨⟨program, vs, fs, cv, cf, link, valid, vbo, pl, cl⟩, hp, hvs, hfs, ?_⟩
    simp [iterationCalls, elementCalls, indices, sizeofGLuint]

theorem init_run (d : Driver F (Shader F)) (w w' : World F (Shader F))
    (h : init d w = (.ret (), w')) :
    ∃ (va0 va1 eb0 eb1 : GLuint) (hd0 hd1 : Handles),
      w'.calls = w.calls ++
        ([.glGenVertexArrays 2 [va0, va1], .glGenBuffers 2 [eb0, eb1]] ++
          iterationCalls 0 va0 eb0 hd0 ++ iterationCalls 1 va1 eb1 hd1) ∧
      w'.err = w.err ∧
      w'.VAO 0 = va0 ∧ w'.VAO 1 = va1 ∧ w'.EBO 0 = eb0 ∧ w'.EBO 1 = eb1 ∧
      w'.shaderProgramID 0 = hd0.program ∧ w'.shaderProgramID 1 = hd1.program ∧
      w'.VBO 0 = hd0.vbo ∧ w'.VBO 1 = hd1.vbo ∧
      hd0.program ≠ 0 ∧ hd0.vs ≠ 0 ∧ hd0.fs ≠ 0 ∧
      hd1.program ≠ 0 ∧ hd1.vs ≠ 0 ∧ hd1.fs ≠ 0 := by
  unfold init at h
  simp only [initLoop, World.call] at h
  split at h
  · simp at h
  · rename_i u0 w1 hb0
    split at h
    · simp at h
    · rename_i u1 w2 hb1
      simp only [Prod.mk.injEq, true_and] at h
      subst h
      obtain ⟨hd0, hp0, hvs0, hfs0, hc0, he0, hs0, hvb0, hva0, heb0⟩ := initBody_run d _ _ _ hb0
      obtain ⟨hd1, hp1, hvs1, hfs1, hc1, he1, hs1, hvb1, hva1, heb1⟩ := initBody_run d _ _ _ hb1
      refine ⟨d.glGenVertexArrays w.calls 0, d.glGenVertexArrays w.calls 1,
        d.glGenBuffers (w.calls ++ [.glGenVertexArrays 2 [d.glGenVertexArrays w.calls 0,
          d.glGenVertexArrays w.calls 1]]) 0,
        d.glGenBuffers (w.calls ++ [.glGenVertexArrays 2 [d.glGenVertexArrays w.calls 0,
          d.glGenVertexArrays w.calls 1]]) 1, hd0, hd1, ?_, ?_, ?_, ?_, ?_, ?_, ?_, ?_, ?_, ?_,
        hp0, hvs0, hfs0, hp1, hvs1, hfs1⟩
      · rw [hc1, hc0, hva0, heb0]
        simp
      · rw [he1, he0]
      · rw [hva1, hva0]; rfl
      · rw [hva1, hva0]; rfl
      · rw [heb1, heb0]; rfl
      · rw [heb1, heb0]; rfl
      · rw [hs1, hs0]; simp
      · rw [hs1]; simp
      · rw [hvb1, hvb0]; simp
      · rw [hvb1]; simp

theorem init_trace_names (va0 va1 eb0 eb1 : GLuint) (hd0 hd1 : Handles)
    (hp0 : hd0.program ≠ 0) (hp1 : hd1.program ≠ 0) :
    generatedVertexArrays
        (([.glGenVertexArrays 2 [va0, va1], .glGenBuffers 2 [eb0, eb1]] ++
          iterationCalls 0 va0 eb0 hd0 ++ iterationCalls 1 va1 eb1 hd1 :
          List (Call F (Shader F)))) = [va0, va1] ∧
    generatedBuffers
        (([.glGenVertexArrays 2 [va0, va1], .glGenBuffers 2 [eb0, eb1]] ++
          iterationCalls 0 va0 eb0 hd0 ++ iterationCalls 1 va1 eb1 hd1 :
          List (Call F (Shader F)))) = [eb0, eb1, hd0.vbo, hd1.vbo] ∧
    createdPrograms
        (([.glGenVertexArrays 2 [va0, va1], .glGenBuffers 2 [eb0, eb1]] ++
          iterationCalls 0 va0 eb0 hd0 ++ iterationCalls 1 va1 eb1 hd1 :
          List (Call F (Shader F)))) = [hd0.program, hd1.program] := by
  simp [iterationCalls, buildCalls, validateCalls, linkCalls, addShaderCalls, compileCalls,
    uploadCalls, describeCalls, elementCalls, generatedVertexArrays, generatedBuffers,
    createdPrograms, hp0, hp1]

/-- C8: when `init`, run from the start of the process, returns (every shader build
step succeeded) and the driver handed out fresh non-zero handles, exactly two vertex
array objects and exactly two shader programs have been created, they are the ones
held in `VAO` and `shaderProgramID`, `VAO[0]` differs from `VAO[1]` and
`shaderProgramID[0]` differs from `shaderProgramID[1]`, and none of the four is zero. -/
theorem init_creates_two_distinct_arrays_and_programs (d : Driver F (Shader F))
    (w' : World F (Shader F)) (h : init d (World.start F (Shader F)) = (.ret (), w'))
    (hf : FreshHandles w'.calls) :
    generatedVertexArrays w'.calls = [w'.VAO 0, w'.VAO 1] ∧
    createdPrograms w'.calls = [w'.shaderProgramID 0, w'.shaderProgramID 1] ∧
    (generatedVertexArrays w'.calls).length = 2 ∧
    (createdPrograms w'.calls).length = 2 ∧
    w'.VAO 0 ≠ w'.VAO 1 ∧
    w'.shaderProgramID 0 ≠ w'.shaderProgramID 1 ∧
    w'.VAO 0 ≠ 0 ∧ w'.VAO 1 ≠ 0 ∧ w'.shaderProgramID 0 ≠ 0 ∧ w'.shaderProgramID 1 ≠ 0 := by
  obtain ⟨va0, va1, eb0, eb1, hd0, hd1, hc, -, hva0, hva1, -, -, hs0, hs1, -, -, hp0, -, -,
    hp1, -, -⟩ := init_run d _ _ h
  obtain ⟨hn1, hn2, hn3⟩ := init_trace_names (F := F) va0 va1 eb0 eb1 hd0 hd1 hp0 hp1
  simp only [World.start, List.nil_append] at hc
  obtain ⟨hfp, hfv, hfv0, -, -⟩ := hf
  rw [hc, hn3] at hfp
  rw [hc, hn1] at hfv hfv0
  rw [hc, hn1, hn3, hva0, hva1, hs0, hs1]
  simp at hfp hfv hfv0
  refine ⟨rfl, rfl, rfl, rfl, hfv, hfp, ?_, ?_, hp0, hp1⟩
  · exact fun hh => hfv0.1 hh.symm
  · exact fun hh => hfv0.2 hh.symm


theorem healthy_init_returns :
    init (healthyDriver Rat (Shader Rat)) (World.start Rat (Shader Rat)) =
      (.ret (), (init (healthyDriver Rat (Shader Rat)) (World.start Rat (Shader Rat))).2) :=
  rfl

theorem healthy_init_fresh :
    FreshHandles (init (healthyDriver Rat (Shader Rat)) (World.start Rat (Shader Rat))).2.calls := by
  unfold FreshHandles
  decide

/-- C8 (witness): `init` through the healthy driver. -/
theorem init_creates_two_distinct_arrays_and_programs_witness :
    init (healthyDriver Rat (Shader Rat)) (World.start Rat (Shader Rat)) =
      (.ret (), (init (healthyDriver Rat (Shader Rat)) (World.start Rat (Shader Rat))).2) ∧
    FreshHandles
      (init (healthyDriver Rat (Shader Rat)) (World.start Rat (Shader Rat))).2.calls ∧
    (init (healthyDriver Rat (Shader Rat)) (World.start Rat (Shader Rat))).2.VAO 0 ≠
      (init (healthyDriver Rat (Shader Rat)) (World.start Rat (Shader Rat))).2.VAO 1 ∧
    (init (healthyDriver Rat (Shader Rat)) (World.start Rat (Shader Rat))).2.shaderProgramID 0 ≠
      (init (healthyDriver Rat (Shader Rat)) (World.start Rat (Shader Rat))).2.shaderProgramID 1 :=
  ⟨healthy_init_returns, healthy_init_fresh,
    (init_creates_two_distinct_arrays_and_programs (healthyDriver Rat (Shader Rat)) _
      healthy_init_returns healthy_init_fresh).2.2.2.2.1,
    (init_creates_two_distinct_arrays_and_programs (healthyDriver Rat (Shader Rat)) _
      healthy_init_returns healthy_init_fresh).2.2.2.2.2.1⟩


/-- C7: read as a function from the interpolated input color to the output color, the
second fragment shader `pFS[1]` returns `(1, 1, 0, 1)` for every input, and the first,
`pFS[0]`, returns its input unchanged.  When `init` returns, the program whose handle
is stored in `shaderProgramID[1]` was built by the `CompileShaders` calls issued with
`pVS` and `pFS[1]` as the two texts; and `display` activates `shaderProgramID[1]` and
binds `VAO[1]` right before its second draw, so that program is current when `VAO[1]`
is drawn. -/
theorem second_triangle_is_drawn_with_constant_color (d : Driver F (Shader F))
    (w' : World F (Shader F)) (h : init d (World.start F (Shader F)) = (.ret (), w')) :
    (∀ c : Value F, (pFS 1 : Shader F).fragColor c = some (.vec4 1.0 1.0 0.0 1.0)) ∧
    (∀ c : Value F, (pFS 0 : Shader F).fragColor c = some c) ∧
    (∃ (before after : List (Call F (Shader F))) (vs fs : GLuint) (cv cf link valid : GLint),
      w'.calls = before ++
        [.glCreateProgram (w'.shaderProgramID 1),
         .glCreateShader GL_VERTEX_SHADER vs, .glShaderSource vs 1 pVS, .glCompileShader vs,
         .glGetShaderiv vs GL_COMPILE_STATUS cv, .glAttachShader (w'.shaderProgramID 1) vs,
         .glCreateShader GL_FRAGMENT_SHADER fs, .glShaderSource fs 1 (pFS 1),
         .glCompileShader fs, .glGetShaderiv fs GL_COMPILE_STATUS cf,
         .glAttachShader (w'.shaderProgramID 1) fs,
         .glLinkProgram (w'.shaderProgramID 1),
         .glGetProgramiv (w'.shaderProgramID 1) GL_LINK_STATUS link,
         .glValidateProgram (w'.shaderProgramID 1),
         .glGetProgramiv (w'.shaderProgramID 1) GL_VALIDATE_STATUS valid,
         .glUseProgram (w'.shaderProgramID 1)] ++ after) ∧
    (∃ before : List (Call F (Shader F)),
      (display w').calls = before ++
        [.glUseProgram (w'.shaderProgramID 1), .glBindVertexArray (w'.VAO 1),
         .glDrawElements GL_TRIANGLES 3 GL_UNSIGNED_INT 0, .glutSwapBuffers] ∧
      ∀ maxAttribs : Nat,
        (glRun maxAttribs (before ++
          [.glUseProgram (w'.shaderProgramID 1), .glBindVertexArray (w'.VAO 1)])).currentProgram =
            w'.shaderProgramID 1 ∧
        (glRun maxAttribs (before ++
          [.glUseProgram (w'.shaderProgramID 1), .glBindVertexArray (w'.VAO 1)])).vertexArray =
            w'.VAO 1) := by
  obtain ⟨va0, va1, eb0, eb1, hd0, hd1, hc, -, -, -, -, -, -, hs1, -, -, -, -, -, -, -, -⟩ :=
    init_run d _ _ h
  refine ⟨?_, ?_, ?_, ?_⟩
  · intro c
    simp [Shader.fragColor, pFS, runMain, Expr.eval, Env.get]
  · intro c
    simp [Shader.fragColor, pFS, runMain, Expr.eval, Env.get]
  · refine ⟨[.glGenVertexArrays 2 [va0, va1], .glGenBuffers 2 [eb0, eb1]] ++
        iterationCalls 0 va0 eb0 hd0,
      uploadCalls hd1.vbo (vertices 1) colors ++
        describeCalls hd1.program va1 hd1.vbo hd1.positionLoc hd1.colorLoc ++
        elementCalls va1 eb1, hd1.vs, hd1.fs, hd1.cv, hd1.cf, hd1.link, hd1.valid, ?_⟩
    rw [hc, hs1]
    simp [World.start, iterationCalls, buildCalls, validateCalls, linkCalls, addShaderCalls,
      compileCalls]
  · refine ⟨w'.calls ++ [.glClear GL_COLOR_BUFFER_BIT, .glUseProgram (w'.shaderProgramID 0),
      .glBindVertexArray (w'.VAO 0), .glDrawElements GL_TRIANGLES 3 GL_UNSIGNED_INT 0], ?_, ?_⟩
    · simp [display, World.call]
    · intro m
      simp [glRun, List.foldl_append, glStep]

/-- C7 (witness): `init` through the healthy driver. -/
theorem second_triangle_is_drawn_with_constant_color_witness :
    init (healthyDriver Rat (Shader Rat)) (World.start Rat (Shader Rat)) =
      (.ret (), (init (healthyDriver Rat (Shader Rat)) (World.start Rat (Shader Rat))).2) ∧
    ∀ c : Value Rat, (pFS 1 : Shader Rat).fragColor c = some (.vec4 1.0 1.0 0.0 1.0) :=
  ⟨healthy_init_returns,
    (second_triangle_is_drawn_with_constant_color (healthyDriver Rat (Shader Rat)) _
      healthy_init_returns).1⟩


end InitTheorems

section RenderTheorems

variable {F Src : Type}

/-- C4: one invocation of `display` issues exactly eight calls: clear the color
buffer; activate `shaderProgramID[0]`, bind `VAO[0]`, indexed draw (triangles, 3
indices, unsigned int, offset 0); activate `shaderProgramID[1]`, bind `VAO[1]`, the
same indexed draw; swap buffers.  So the pass holds exactly two draw calls, and it
prints nothing and leaves the four handle arrays as they were. -/
theorem display_call_sequence (w : World F Src) :
    (display w).calls = w.calls ++
      [.glClear GL_COLOR_BUFFER_BIT,
       .glUseProgram (w.shaderProgramID 0), .glBindVertexArray (w.VAO 0),
       .glDrawElements GL_TRIANGLES 3 GL_UNSIGNED_INT 0,
       .glUseProgram (w.shaderProgramID 1), .glBindVertexArray (w.VAO 1),
       .glDrawElements GL_TRIANGLES 3 GL_UNSIGNED_INT 0,
       .glutSwapBuffers] ∧
    (((display w).calls.drop w.calls.length).filter Call.isDraw =
      [.glDrawElements GL_TRIANGLES 3 GL_UNSIGNED_INT 0,
       .glDrawElements GL_TRIANGLES 3 GL_UNSIGNED_INT 0]) ∧
    (display w).err = w.err ∧
    (display w).shaderProgramID = w.shaderProgramID ∧ (display w).VAO = w.VAO ∧
    (display w).VBO = w.VBO ∧ (display w).EBO = w.EBO := by
  simp [display, World.call, Call.isDraw]

end RenderTheorems

section LinkTheorems

variable {F Src : Type}

/-- C5 (as amended): `linkCurrentBuffertoShader` looks up the program's input
locations under the names "vPosition" and "vColor", in that order, which are the two
inputs the vertex shader `pVS` declares; the two locations returned, converted to
`GLuint`, are the ones it enables and describes. -/
theorem linkCurrentBuffertoShader_looks_up_vPosition_vColor (d : Driver F Src)
    (w : World F Src) (VAO VBO program : GLuint) :
    (linkCurrentBuffertoShader d w VAO VBO program).calls = w.calls ++
      [.glGetAttribLocation program "vPosition"
         (d.glGetAttribLocation w.calls program "vPosition"),
       .glGetAttribLocation program "vColor"
         (d.glGetAttribLocation
           (w.calls ++ [.glGetAttribLocation program "vPosition"
             (d.glGetAttribLocation w.calls program "vPosition")]) program "vColor"),
       .glBindVertexArray VAO,
       .glBindBuffer GL_ARRAY_BUFFER VBO,
       .glEnableVertexAttribArray (toGLuint (d.glGetAttribLocation w.calls program "vPosition")),
       .glVertexAttribPointer (toGLuint (d.glGetAttribLocation w.calls program "vPosition"))
         3 GL_FLOAT false 0 0,
       .glEnableVertexAttribArray (toGLuint (d.glGetAttribLocation
           (w.calls ++ [.glGetAttribLocation program "vPosition"
             (d.glGetAttribLocation w.calls program "vPosition")]) program "vColor")),
       .glVertexAttribPointer (toGLuint (d.glGetAttribLocation
           (w.calls ++ [.glGetAttribLocation program "vPosition"
             (d.glGetAttribLocation w.calls program "vPosition")]) program "vColor"))
         4 GL_FLOAT false 0 36] ∧
    lookedUpNames ((linkCurrentBuffertoShader d w VAO VBO program).calls.drop w.calls.length) =
      ["vPosition", "vColor"] ∧
    (pVS : Shader Rat).inputs = ["vPosition", "vColor"] := by
  refine ⟨?_, ?_, ?_⟩
  · simp [linkCurrentBuffertoShader, World.call, BUFFER_OFFSET, sizeofGLfloat]
  · simp [linkCurrentBuffertoShader, World.call, lookedUpNames]
  · simp [Shader.inputs, pVS]

/-- C5 (counterexample): the names looked up are not "position" and "color". -/
theorem linkCurrentBuffertoShader_does_not_look_up_position_color :
    lookedUpNames (linkCurrentBuffertoShader (healthyDriver Nat String)
      (World.start Nat String) 1 2 3).calls ≠ ["position", "color"] := by
  decide

end LinkTheorems

end Lab1
